import Mathlib

/-!
Shallow embedding of the CSV location-import job
(`src/jobs/location_import.py`).

The job reads CSV rows `(name, city, state)` and materialises a
State → City → leaf-site hierarchy in an external inventory store.
We model the store explicitly: a list of `Location` records with
numeric identities, plus the provisioned `LocationType` and `Status`
reference records (referenced by their names).  Python exceptions are
modelled with `Except String`; log lines and the per-run result
collection are accumulated in a `RunState`.
-/

/-- Log severity of an emitted log line (`logger.info` / `logger.error`). -/
inductive LogLevel where
  | info : LogLevel
  | error : LogLevel
deriving DecidableEq, Repr

/-- A `Location` record of the external store.  `location_type` and
`status` are references to reference records, held by name (the code
only ever obtains them via name lookup).  `parent` is a reference to
another `Location`, by its identity. -/
structure Location where
  id : Nat
  name : String
  location_type : String
  status : String
  parent : Option Nat
deriving DecidableEq, Repr

/-- The external inventory store: the `Location` table (with a counter
for fresh identities) plus the names of the provisioned `LocationType`
and `Status` reference records. -/
structure Store where
  locations : List Location
  nextId : Nat
  locationTypeNames : List String
  statusNames : List String
deriving DecidableEq, Repr

/-- A lookup query against the `Location` table, as passed to
`Location.objects.get_or_create`: `name` is always filtered;
`location_type` and `parent` are filtered only when supplied
(`none` = not part of the query). -/
structure LocQuery where
  name : String
  location_type : Option String
  parent : Option (Option Nat)
deriving DecidableEq, Repr

/-- Whether a record matches a query: every supplied field must agree. -/
def Location.matchesQuery (l : Location) (q : LocQuery) : Bool :=
  l.name == q.name &&
    (match q.location_type with
     | none => true
     | some t => l.location_type == t) &&
    (match q.parent with
     | none => true
     | some p => l.parent == p)

/-- The `defaults={...}` argument of `get_or_create`: field values
applied only when a new record is created. -/
structure LocDefaults where
  location_type : Option String
  status : Option String
  parent : Option (Option Nat)
deriving DecidableEq, Repr

/-- `Location.objects.get_or_create(**query, defaults=d)`:
with no matching record, insert a fresh one built from the query
fields plus the defaults and return it with `was_created = true`;
with exactly one match return it unchanged; with several matches the
underlying `get()` raises `MultipleObjectsReturned`. -/
def getOrCreate (s : Store) (q : LocQuery) (d : LocDefaults) :
    Except String (Location × Bool × Store) :=
  match s.locations.filter (fun l => l.matchesQuery q) with
  | [] =>
    let newLoc : Location :=
      { id := s.nextId
        name := q.name
        location_type := q.location_type.getD (d.location_type.getD "")
        status := d.status.getD ""
        parent := q.parent.getD (d.parent.getD none) }
    Except.ok (newLoc, true,
      { s with locations := s.locations ++ [newLoc], nextId := s.nextId + 1 })
  | [l] => Except.ok (l, false, s)
  | _ :: _ :: _ => Except.error "get() returned more than one Location"

/-- `record.save()`: persist an in-place mutation of an existing record
(the record with the same identity is replaced). -/
def saveLoc (s : Store) (l : Location) : Store :=
  { s with locations := s.locations.map (fun x => if x.id == l.id then l else x) }

/-- `LocationType.objects.get(name=n)`: resolves a provisioned
location-type reference record by name; raises `DoesNotExist` when the
record is absent. -/
def locationTypeGet (s : Store) (n : String) : Except String String :=
  if n ∈ s.locationTypeNames then Except.ok n
  else Except.error "LocationType matching query does not exist."

/-- `Status.objects.get(name=n)`: resolves a provisioned status
reference record by name; raises `DoesNotExist` when absent. -/
def statusGet (s : Store) (n : String) : Except String String :=
  if n ∈ s.statusNames then Except.ok n
  else Except.error "Status matching query does not exist."

/-- Python's `str.endswith(suffix)`: the string's characters end with
the suffix's characters. -/
def endswith (s suffix : String) : Bool :=
  suffix.data.isSuffixOf s.data

/-- Worker for Python's `str.title()`: a character following a cased
(here: alphabetic) character is lowercased, a cased character starting
a word (following a non-cased character or the start) is uppercased,
non-alphabetic characters pass through. -/
def pyTitleGo (prevCased : Bool) : List Char → List Char
  | [] => []
  | c :: cs =>
    if c.isAlpha then
      (if prevCased then c.toLower else c.toUpper) :: pyTitleGo true cs
    else
      c :: pyTitleGo false cs

/-- Python's `str.title()` on a string. -/
def pyTitle (s : String) : String :=
  String.mk (pyTitleGo false s.data)

/-- The fixed 50-entry `STATE_MAPPING` table: state abbreviation to
full state name. -/
def STATE_MAPPING : List (String × String) :=
  [("AL", "Alabama"), ("AK", "Alaska"), ("AZ", "Arizona"), ("AR", "Arkansas"),
   ("CA", "California"), ("CO", "Colorado"), ("CT", "Connecticut"), ("DE", "Delaware"),
   ("FL", "Florida"), ("GA", "Georgia"), ("HI", "Hawaii"), ("ID", "Idaho"),
   ("IL", "Illinois"), ("IN", "Indiana"), ("IA", "Iowa"), ("KS", "Kansas"),
   ("KY", "Kentucky"), ("LA", "Louisiana"), ("ME", "Maine"), ("MD", "Maryland"),
   ("MA", "Massachusetts"), ("MI", "Michigan"), ("MN", "Minnesota"), ("MS", "Mississippi"),
   ("MO", "Missouri"), ("MT", "Montana"), ("NE", "Nebraska"), ("NV", "Nevada"),
   ("NH", "New Hampshire"), ("NJ", "New Jersey"), ("NM", "New Mexico"), ("NY", "New York"),
   ("NC", "North Carolina"), ("ND", "North Dakota"), ("OH", "Ohio"), ("OK", "Oklahoma"),
   ("OR", "Oregon"), ("PA", "Pennsylvania"), ("RI", "Rhode Island"), ("SC", "South Carolina"),
   ("SD", "South Dakota"), ("TN", "Tennessee"), ("TX", "Texas"), ("UT", "Utah"),
   ("VT", "Vermont"), ("VA", "Virginia"), ("WA", "Washington"), ("WV", "West Virginia"),
   ("WI", "Wisconsin"), ("WY", "Wyoming")]

/-- `LocationImportJob.normalize_state`: exact table lookup, else
`state.title()`. -/
def normalize_state (state : String) : String :=
  match STATE_MAPPING.lookup state with
  | some full => full
  | none => pyTitle state

/-- `LocationImportJob.get_location_type`: classify a leaf name by its
suffix and resolve the corresponding `LocationType` record; a name with
neither suffix raises a `ValueError` carrying the name. -/
def get_location_type (s : Store) (name : String) : Except String String :=
  if endswith name "-DC" then locationTypeGet s "Data Center"
  else if endswith name "-BR" then locationTypeGet s "Branch"
  else Except.error ("Location name " ++ name ++ " must end with either -DC or -BR")

/-- One parsed CSV row (`csv.DictReader` dictionary restricted to the
three columns the job reads). -/
structure CsvRow where
  name : String
  city : String
  state : String
deriving DecidableEq, Repr

/-- Transient run state threaded through the job: the store, the log
lines emitted so far, and the `created_or_updated` result collection
(held as the identities of the appended records). -/
structure RunState where
  store : Store
  logs : List (LogLevel × String)
  results : List Nat
deriving DecidableEq, Repr

/-- Step 1 of a row (`# 1. Create/Get State Location`): normalize the
state, `get_or_create` by (name, location_type = State) with default
status, log on creation. -/
def resolveState (state_type active_status : String) (rs : RunState) (row : CsvRow) :
    Except String (Location × RunState) :=
  let full_state_name := normalize_state row.state
  match getOrCreate rs.store ⟨full_state_name, some state_type, none⟩
      ⟨none, some active_status, none⟩ with
  | Except.error e => Except.error e
  | Except.ok (l, created, st) =>
    Except.ok (l,
      { rs with
        store := st
        logs := rs.logs ++
          (if created then [(LogLevel.info, "Created state location: " ++ full_state_name)]
           else []) })

/-- Step 2 of a row (`# 2. Create/Get City Location`): `get_or_create`
by (name = row city, location_type = City, parent = state location)
with default status, log on creation. -/
def resolveCity (city_type active_status : String) (rs : RunState) (row : CsvRow)
    (state_location : Location) : Except String (Location × RunState) :=
  match getOrCreate rs.store ⟨row.city, some city_type, some (some state_location.id)⟩
      ⟨none, some active_status, none⟩ with
  | Except.error e => Except.error e
  | Except.ok (l, created, st) =>
    Except.ok (l,
      { rs with
        store := st
        logs := rs.logs ++
          (if created then
            [(LogLevel.info,
              "Created city location: " ++ row.city ++ " in " ++ normalize_state row.state)]
           else []) })

/-- Step 3 of a row (`# 3. Create/Update Branch or DC Location`):
classify the name, `get_or_create` keyed on the name alone with
defaults (type, status, parent); an already-existing record is mutated
in place and saved; either way the record is logged and appended to the
result collection. -/
def resolveSite (active_status : String) (rs : RunState) (row : CsvRow)
    (city_location : Location) : Except String RunState :=
  match get_location_type rs.store row.name with
  | Except.error e => Except.error e
  | Except.ok location_type =>
    match getOrCreate rs.store ⟨row.name, none, none⟩
        ⟨some location_type, some active_status, some (some city_location.id)⟩ with
    | Except.error e => Except.error e
    | Except.ok (site_location, site_created, st) =>
      let site2 :=
        if site_created then site_location
        else { site_location with
               location_type := location_type
               status := active_status
               parent := some city_location.id }
      let st2 := if site_created then st else saveLoc st site2
      let action := if site_created then "Created" else "Updated"
      Except.ok
        { store := st2
          logs := rs.logs ++
            [(LogLevel.info,
              action ++ " location: " ++ site2.name ++ " in " ++ row.city ++ ", " ++
                normalize_state row.state)]
          results := rs.results ++ [site2.id] }

/-- Body of the `try` block for one row: the three steps in order.  A
failure carries the run state reached so far (commits are kept). -/
def processRowBody (state_type city_type active_status : String) (rs : RunState)
    (row : CsvRow) : Except (RunState × String) RunState :=
  match resolveState state_type active_status rs row with
  | Except.error e => Except.error (rs, e)
  | Except.ok (state_location, rs1) =>
    match resolveCity city_type active_status rs1 row state_location with
    | Except.error e => Except.error (rs1, e)
    | Except.ok (city_location, rs2) =>
      match resolveSite active_status rs2 row city_location with
      | Except.error e => Except.error (rs2, e)
      | Except.ok rs3 => Except.ok rs3

/-- One loop iteration: the `try` body, with the `except` clause that
logs an error line carrying the row's name and the exception message
and then re-raises. -/
def processRow (state_type city_type active_status : String) (rs : RunState)
    (row : CsvRow) : Except (RunState × String) RunState :=
  match processRowBody state_type city_type active_status rs row with
  | Except.ok rs2 => Except.ok rs2
  | Except.error (rsE, msg) =>
    Except.error
      ({ rsE with
         logs := rsE.logs ++
           [(LogLevel.error, "Error processing location " ++ row.name ++ ": " ++ msg)] },
       msg)

/-- The `for row in reader` loop: process rows in order, aborting the
whole run on the first failure. -/
def runLoop (state_type city_type active_status : String) (rs : RunState) :
    List CsvRow → Except (RunState × String) RunState
  | [] => Except.ok rs
  | row :: rest =>
    match processRow state_type city_type active_status rs row with
    | Except.ok rs2 => runLoop state_type city_type active_status rs2 rest
    | Except.error e => Except.error e

/-- `LocationImportJob.run` on already-parsed rows: resolve the State
and City location types and the Active status up front (failures there
propagate before any row is touched), run the loop, and on full success
return the summary message. -/
def run (s : Store) (rows : List CsvRow) :
    Except (RunState × String) (RunState × String) :=
  match locationTypeGet s "State" with
  | Except.error e => Except.error (⟨s, [], []⟩, e)
  | Except.ok state_type =>
    match locationTypeGet s "City" with
    | Except.error e => Except.error (⟨s, [], []⟩, e)
    | Except.ok city_type =>
      match statusGet s "Active" with
      | Except.error e => Except.error (⟨s, [], []⟩, e)
      | Except.ok active_status =>
        match runLoop state_type city_type active_status ⟨s, [], []⟩ rows with
        | Except.error e => Except.error e
        | Except.ok rs =>
          Except.ok (rs, "Successfully processed " ++ toString rs.results.length ++ " locations")

/-- Split a character list on a separator character (the pieces between
occurrences of the separator, in order). -/
def splitOnChar (sep : Char) : List Char → List (List Char)
  | [] => [[]]
  | c :: cs =>
    if c = sep then [] :: splitOnChar sep cs
    else
      match splitOnChar sep cs with
      | [] => [[c]]
      | r :: rs => (c :: r) :: rs

/-- Python's `str.strip()`: drop leading and trailing whitespace. -/
def pyStrip (s : String) : String :=
  String.mk
    (((s.data.dropWhile fun c => c.isWhitespace).reverse.dropWhile
        fun c => c.isWhitespace).reverse)

/-- `csv.DictReader` over `csv_data.strip()` for plain (unquoted) CSV
text: the first line gives the column names, each further line is split
on commas and read through the header. -/
def parseCsv (data : String) : List CsvRow :=
  match splitOnChar '\n' (pyStrip data).data with
  | [] => []
  | header :: lines =>
    let cols := (splitOnChar ',' header).map String.mk
    (lines.map fun line =>
      let fields := cols.zip ((splitOnChar ',' line).map String.mk)
      { name := (fields.lookup "name").getD ""
        city := (fields.lookup "city").getD ""
        state := (fields.lookup "state").getD "" })

/-- The whole job on raw CSV text. -/
def runCsv (s : Store) (data : String) :
    Except (RunState × String) (RunState × String) :=
  run s (parseCsv data)

/-- A store holding only the provisioned reference data: the four
location types and the Active status, no locations. -/
def referenceStore : Store :=
  { locations := []
    nextId := 0
    locationTypeNames := ["State", "City", "Data Center", "Branch"]
    statusNames := ["Active"] }

/-! ## Basic facts about the suffix test and the type classifier -/

lemma endswith_iff_suffix (s suffix : String) :
    endswith s suffix = true ↔ suffix.data <:+ s.data := by
  simp [endswith]

lemma endswith_BR_not_DC (s : String) (h : endswith s "-BR" = true) :
    endswith s "-DC" = false := by
  by_contra hdc
  rw [Bool.not_eq_false, endswith_iff_suffix] at hdc
  rw [endswith_iff_suffix] at h
  obtain ⟨t1, h1⟩ := h
  obtain ⟨t2, h2⟩ := hdc
  have hl : ("-BR").data.length = ("-DC").data.length := by decide
  have h12 := List.append_inj' (h1.trans h2.symm) hl
  exact absurd h12.2 (by decide)

lemma locationTypeGet_ok {s : Store} {n t : String}
    (h : locationTypeGet s n = Except.ok t) : t = n := by
  unfold locationTypeGet at h
  split at h
  · exact (Except.ok.inj h).symm
  · simp at h

/-- C3: Type Classifier total behaviour — with the two type records
provisioned under their fixed human-readable names, every name ending
in "-DC" classifies as the Data Center type, every name ending in "-BR"
as the Branch type, any other name raises a classification failure
whose message carries the offending name, and a successful
classification never yields anything but the two types. -/
theorem get_location_type_total (s : Store) (name : String)
    (hdc : "Data Center" ∈ s.locationTypeNames)
    (hbr : "Branch" ∈ s.locationTypeNames) :
    (endswith name "-DC" = true → get_location_type s name = Except.ok "Data Center") ∧
    (endswith name "-BR" = true → get_location_type s name = Except.ok "Branch") ∧
    (endswith name "-DC" = false → endswith name "-BR" = false →
      get_location_type s name =
        Except.error ("Location name " ++ name ++ " must end with either -DC or -BR")) ∧
    (∀ t, get_location_type s name = Except.ok t → t = "Data Center" ∨ t = "Branch") := by
  refine ⟨?_, ?_, ?_, ?_⟩
  · intro h
    simp [get_location_type, h, locationTypeGet, hdc]
  · intro h
    have hdc2 := endswith_BR_not_DC name h
    simp [get_location_type, h, hdc2, locationTypeGet, hbr]
  · intro h1 h2
    simp [get_location_type, h1, h2]
  · intro t ht
    unfold get_location_type at ht
    split at ht
    · exact Or.inl (locationTypeGet_ok ht)
    · split at ht
      · exact Or.inr (locationTypeGet_ok ht)
      · simp at ht

/-- Witness for C3 at concrete inputs. -/
theorem get_location_type_total_witness :
    get_location_type referenceStore "HQ-DC" = Except.ok "Data Center" ∧
    get_location_type referenceStore "BR1-BR" = Except.ok "Branch" ∧
    get_location_type referenceStore "SITE1" =
      Except.error ("Location name " ++ "SITE1" ++ " must end with either -DC or -BR") :=
  ⟨(get_location_type_total referenceStore "HQ-DC" (by decide) (by decide)).1 (by decide),
   (get_location_type_total referenceStore "BR1-BR" (by decide) (by decide)).2.1 (by decide),
   (get_location_type_total referenceStore "SITE1" (by decide) (by decide)).2.2.1
     (by decide) (by decide)⟩

/-! ## The state normalizer -/

/-- Specification-side description of the title-casing fallback: the
character at position `i` of the output, computed from the input
characters — an alphabetic character opening a word (at the start or
after a non-alphabetic character) is capitalized, every other
alphabetic character is lowercased, non-alphabetic characters are
unchanged. -/
def titleSpecChar (cs : List Char) (i : Nat) : Char :=
  let c := cs.getD i ' '
  if c.isAlpha then
    if i = 0 ∨ (cs.getD (i - 1) ' ').isAlpha = false then c.toUpper else c.toLower
  else c

lemma pyTitleGo_length : ∀ (cs : List Char) (prev : Bool),
    (pyTitleGo prev cs).length = cs.length := by
  intro cs
  induction cs with
  | nil => intro prev; rfl
  | cons c cs ih =>
    intro prev
    by_cases hc : c.isAlpha <;> simp [pyTitleGo, hc, ih]

lemma pyTitleGo_getD : ∀ (cs : List Char) (prev : Bool) (i : Nat), i < cs.length →
    (pyTitleGo prev cs).getD i ' ' =
      (if (cs.getD i ' ').isAlpha then
        (if (if i = 0 then prev else (cs.getD (i - 1) ' ').isAlpha) then (cs.getD i ' ').toLower
         else (cs.getD i ' ').toUpper)
       else cs.getD i ' ') := by
  intro cs
  induction cs with
  | nil => intro prev i h; simp at h
  | cons c cs ih =>
    intro prev i h
    match i with
    | 0 => by_cases hc : c.isAlpha <;> simp [pyTitleGo, hc]
    | j + 1 =>
      have hj : j < cs.length := by
        simpa using Nat.lt_of_succ_lt_succ h
      by_cases hc : c.isAlpha
      · rw [show pyTitleGo prev (c :: cs) =
              (if prev then c.toLower else c.toUpper) :: pyTitleGo true cs by
            simp [pyTitleGo, hc]]
        rw [List.getD_cons_succ, ih true j hj]
        match j with
        | 0 => simp [hc]
        | k + 1 => simp
      · rw [show pyTitleGo prev (c :: cs) = c :: pyTitleGo false cs by simp [pyTitleGo, hc]]
        rw [List.getD_cons_succ, ih false j hj]
        match j with
        | 0 => simp [hc]
        | k + 1 => simp

lemma lookup_eq_some_of_mem : ∀ (l : List (String × String)) (a b : String),
    (l.map Prod.fst).Nodup → (a, b) ∈ l → l.lookup a = some b := by
  intro l
  induction l with
  | nil => intro a b _ h; simp at h
  | cons p rest ih =>
    intro a b hnd hmem
    obtain ⟨k, v⟩ := p
    rw [List.map_cons, List.nodup_cons] at hnd
    rcases List.mem_cons.mp hmem with heq | hrest
    · obtain ⟨rfl, rfl⟩ := Prod.mk.injEq .. ▸ heq
      simp [List.lookup_cons]
    · have hak : a ≠ k := by
        intro hak
        exact hnd.1 (hak ▸ List.mem_map.mpr ⟨(a, b), hrest, rfl⟩)
      rw [List.lookup_cons]
      have hbeq : (a == k) = false := beq_eq_false_iff_ne.mpr hak
      rw [hbeq]
      exact ih a b hnd.2 hrest

lemma lookup_eq_none_of_not_mem : ∀ (l : List (String × String)) (a : String),
    a ∉ l.map Prod.fst → l.lookup a = none := by
  intro l
  induction l with
  | nil => intro a _; rfl
  | cons p rest ih =>
    intro a ha
    obtain ⟨k, v⟩ := p
    rw [List.map_cons] at ha
    have hak : a ≠ k := fun h => ha (h ▸ List.mem_cons_self _ _)
    rw [List.lookup_cons, beq_eq_false_iff_ne.mpr hak]
    exact ih a (fun h => ha (List.mem_cons_of_mem _ h))

lemma STATE_MAPPING_keys_nodup : (STATE_MAPPING.map Prod.fst).Nodup := by decide

/-- C4: State Normalizer behaviour — an input that is a key of the
fixed table (compared case-sensitively by string equality) maps to
exactly the corresponding full state name; any other input maps to the
title-cased transform of the input, whose characters are exactly as the
specification describes (each word's first letter capitalized, the rest
lowercased, non-letters unchanged).  The normalizer is a pure total
function: no side effects, no error conditions. -/
theorem normalize_state_spec (s : String) :
    (∀ full, (s, full) ∈ STATE_MAPPING → normalize_state s = full) ∧
    (s ∉ STATE_MAPPING.map Prod.fst → normalize_state s = pyTitle s) ∧
    (pyTitle s).data.length = s.data.length ∧
    (∀ i, i < s.data.length → (pyTitle s).data.getD i ' ' = titleSpecChar s.data i) := by
  refine ⟨?_, ?_, ?_, ?_⟩
  · intro full hmem
    unfold normalize_state
    rw [lookup_eq_some_of_mem STATE_MAPPING s full STATE_MAPPING_keys_nodup hmem]
  · intro hnot
    unfold normalize_state
    rw [lookup_eq_none_of_not_mem STATE_MAPPING s hnot]
  · exact pyTitleGo_length s.data false
  · intro i hi
    show (pyTitleGo false s.data).getD i ' ' = titleSpecChar s.data i
    rw [pyTitleGo_getD s.data false i hi]
    unfold titleSpecChar
    simp only [List.getD_eq_getElem?_getD]
    by_cases hc : ((s.data[i]?).getD ' ').isAlpha
    · simp only [hc, if_true]
      match i with
      | 0 => simp
      | j + 1 =>
        simp only [Nat.succ_ne_zero, if_false, false_or, Nat.add_sub_cancel]
        by_cases hp : ((s.data[j]?).getD ' ').isAlpha
        · simp [hp]
        · simp [hp]
    · simp [hc]

/-- Witness for C4 at concrete inputs. -/
theorem normalize_state_spec_witness :
    normalize_state "TX" = "Texas" ∧
    normalize_state "new york" = pyTitle "new york" ∧
    (pyTitle "new york").data.getD 0 ' ' = titleSpecChar "new york".data 0 :=
  ⟨(normalize_state_spec "TX").1 "Texas" (by decide),
   (normalize_state_spec "new york").2.1 (by decide),
   (normalize_state_spec "new york").2.2.2 0 (by decide)⟩

/-! ## End-to-end scenario and classification-failure behaviour -/

/-- C9: End-to-end scenario — running the job on the two-row CSV with
header `name,city,state` and rows `(HQ-DC, Austin, TX)` then
`(BR1-BR, Austin, TX)`, starting from a store holding only the
reference data, creates State "Texas" exactly once, City "Austin"
under Texas exactly once, leaf "HQ-DC" (Data Center, parent Austin),
leaf "BR1-BR" (Branch, parent Austin), and returns
"Successfully processed 2 locations". -/
theorem run_two_row_csv :
    ∃ rs : RunState, ∃ texas austin hq br : Location,
      runCsv referenceStore "name,city,state\nHQ-DC,Austin,TX\nBR1-BR,Austin,TX" =
        Except.ok (rs, "Successfully processed 2 locations") ∧
      rs.store.locations = [texas, austin, hq, br] ∧
      texas.name = "Texas" ∧ texas.location_type = "State" ∧
        texas.status = "Active" ∧ texas.parent = none ∧
      austin.name = "Austin" ∧ austin.location_type = "City" ∧
        austin.status = "Active" ∧ austin.parent = some texas.id ∧
      hq.name = "HQ-DC" ∧ hq.location_type = "Data Center" ∧
        hq.status = "Active" ∧ hq.parent = some austin.id ∧
      br.name = "BR1-BR" ∧ br.location_type = "Branch" ∧
        br.status = "Active" ∧ br.parent = some austin.id ∧
      (rs.store.locations.filter (fun l => l.name == "Texas")).length = 1 ∧
      (rs.store.locations.filter (fun l => l.name == "Austin")).length = 1 := by
  refine ⟨⟨⟨[⟨0, "Texas", "State", "Active", none⟩,
             ⟨1, "Austin", "City", "Active", some 0⟩,
             ⟨2, "HQ-DC", "Data Center", "Active", some 1⟩,
             ⟨3, "BR1-BR", "Branch", "Active", some 1⟩],
            4, ["State", "City", "Data Center", "Branch"], ["Active"]⟩,
           [(LogLevel.info, "Created state location: Texas"),
            (LogLevel.info, "Created city location: Austin in Texas"),
            (LogLevel.info, "Created location: HQ-DC in Austin, Texas"),
            (LogLevel.info, "Created location: BR1-BR in Austin, Texas")],
           [2, 3]⟩,
         ⟨0, "Texas", "State", "Active", none⟩,
         ⟨1, "Austin", "City", "Active", some 0⟩,
         ⟨2, "HQ-DC", "Data Center", "Active", some 1⟩,
         ⟨3, "BR1-BR", "Branch", "Active", some 1⟩,
         ?_, rfl, rfl, rfl, rfl, rfl, rfl, rfl, rfl, rfl, rfl, rfl, rfl, rfl,
         rfl, rfl, rfl, rfl, rfl, rfl⟩
  rfl

/-- C10: for a row whose name carries neither suffix, the State and
City get-or-creates of steps 1 and 2 run before classification raises:
the run state at the failure is exactly the one left by step 2 (their
commits and creation logs are kept, with only the error line appended),
the leaf is never written, and the row fails with the classification
error. -/
theorem classify_fail_keeps_parent_commits (state_type city_type active_status : String)
    (rs rs1 rs2 : RunState) (row : CsvRow) (sl cl : Location)
    (h1 : endswith row.name "-DC" = false) (h2 : endswith row.name "-BR" = false)
    (hs : resolveState state_type active_status rs row = Except.ok (sl, rs1))
    (hc : resolveCity city_type active_status rs1 row sl = Except.ok (cl, rs2)) :
    processRow state_type city_type active_status rs row =
      Except.error
        ({ rs2 with
           logs := rs2.logs ++
             [(LogLevel.error,
               "Error processing location " ++ row.name ++ ": " ++
                 ("Location name " ++ row.name ++ " must end with either -DC or -BR"))] },
         "Location name " ++ row.name ++ " must end with either -DC or -BR") := by
  have hbody : processRowBody state_type city_type active_status rs row =
      Except.error (rs2,
        "Location name " ++ row.name ++ " must end with either -DC or -BR") := by
    unfold processRowBody
    rw [hs]
    dsimp only
    rw [hc]
    dsimp only
    unfold resolveSite get_location_type
    rw [h1, h2]
    simp
  unfold processRow
  rw [hbody]

/-- Witness for C10: the row (BADNAME, Austin, TX) on the bare
reference store commits and logs the new Texas and Austin records,
writes no leaf, and aborts with the classification error. -/
theorem classify_fail_keeps_parent_commits_witness :
    processRow "State" "City" "Active" ⟨referenceStore, [], []⟩ ⟨"BADNAME", "Austin", "TX"⟩ =
      Except.error
        ({ store :=
             ⟨[⟨0, "Texas", "State", "Active", none⟩,
               ⟨1, "Austin", "City", "Active", some 0⟩],
              2, ["State", "City", "Data Center", "Branch"], ["Active"]⟩
           logs :=
             [(LogLevel.info, "Created state location: Texas"),
              (LogLevel.info, "Created city location: Austin in Texas")] ++
             [(LogLevel.error,
               "Error processing location " ++ "BADNAME" ++ ": " ++
                 ("Location name " ++ "BADNAME" ++ " must end with either -DC or -BR"))]
           results := [] },
         "Location name " ++ "BADNAME" ++ " must end with either -DC or -BR") :=
  classify_fail_keeps_parent_commits "State" "City" "Active"
    ⟨referenceStore, [], []⟩
    ⟨⟨[⟨0, "Texas", "State", "Active", none⟩],
      1, ["State", "City", "Data Center", "Branch"], ["Active"]⟩,
     [(LogLevel.info, "Created state location: Texas")], []⟩
    ⟨⟨[⟨0, "Texas", "State", "Active", none⟩,
       ⟨1, "Austin", "City", "Active", some 0⟩],
      2, ["State", "City", "Data Center", "Branch"], ["Active"]⟩,
     [(LogLevel.info, "Created state location: Texas"),
      (LogLevel.info, "Created city location: Austin in Texas")], []⟩
    ⟨"BADNAME", "Austin", "TX"⟩
    ⟨0, "Texas", "State", "Active", none⟩
    ⟨1, "Austin", "City", "Active", some 0⟩
    (by decide) (by decide) rfl rfl

/-- Counterexample to C6: with every location type provisioned but the
"Active" status record absent, the run on the one-row CSV
(HQ-DC, Austin, TX) fails to resolve required reference data in the
preamble — before any row's three-step processing — and aborts with an
empty log: no error line carrying the row's name is ever emitted. -/
theorem missing_status_fails_before_rows :
    run ⟨[], 0, ["State", "City", "Data Center", "Branch"], []⟩
        [⟨"HQ-DC", "Austin", "TX"⟩] =
      Except.error
        (⟨⟨[], 0, ["State", "City", "Data Center", "Branch"], []⟩, [], []⟩,
         "Status matching query does not exist.") := rfl

/-- C6 (amended): failures resolving the State or City location types
or the Active status happen in the run preamble, before any row, and
propagate with no log line at all; only a failure resolving the
Data Center or Branch type record happens during a row's three-step
processing and is then logged with that row's name before the failure
propagates and aborts the run. -/
theorem missing_reference_data_logging (s : Store) (rows : List CsvRow) :
    ("State" ∉ s.locationTypeNames →
      run s rows =
        Except.error (⟨s, [], []⟩, "LocationType matching query does not exist.")) ∧
    ("State" ∈ s.locationTypeNames → "City" ∉ s.locationTypeNames →
      run s rows =
        Except.error (⟨s, [], []⟩, "LocationType matching query does not exist.")) ∧
    ("State" ∈ s.locationTypeNames → "City" ∈ s.locationTypeNames →
      "Active" ∉ s.statusNames →
      run s rows =
        Except.error (⟨s, [], []⟩, "Status matching query does not exist.")) ∧
    (∀ rs rs1 rs2 : RunState, ∀ row : CsvRow, ∀ sl cl : Location,
      resolveState "State" "Active" rs row = Except.ok (sl, rs1) →
      resolveCity "City" "Active" rs1 row sl = Except.ok (cl, rs2) →
      endswith row.name "-BR" = true →
      "Branch" ∉ rs2.store.locationTypeNames →
      processRow "State" "City" "Active" rs row =
        Except.error
          ({ rs2 with
             logs := rs2.logs ++
               [(LogLevel.error,
                 "Error processing location " ++ row.name ++ ": " ++
                   "LocationType matching query does not exist.")] },
           "LocationType matching query does not exist.")) ∧
    (∀ rs rs1 rs2 : RunState, ∀ row : CsvRow, ∀ sl cl : Location,
      resolveState "State" "Active" rs row = Except.ok (sl, rs1) →
      resolveCity "City" "Active" rs1 row sl = Except.ok (cl, rs2) →
      endswith row.name "-DC" = true →
      "Data Center" ∉ rs2.store.locationTypeNames →
      processRow "State" "City" "Active" rs row =
        Except.error
          ({ rs2 with
             logs := rs2.logs ++
               [(LogLevel.error,
                 "Error processing location " ++ row.name ++ ": " ++
                   "LocationType matching query does not exist.")] },
           "LocationType matching query does not exist.")) := by
  refine ⟨?_, ?_, ?_, ?_, ?_⟩
  · intro h
    unfold run locationTypeGet
    rw [if_neg h]
  · intro h1 h2
    unfold run locationTypeGet
    rw [if_pos h1]
    dsimp only
    rw [if_neg h2]
  · intro h1 h2 h3
    unfold run locationTypeGet statusGet
    rw [if_pos h1]
    dsimp only
    rw [if_pos h2]
    dsimp only
    rw [if_neg h3]
  · intro rs rs1 rs2 row sl cl hs hc hbr hnot
    have hbody : processRowBody "State" "City" "Active" rs row =
        Except.error (rs2, "LocationType matching query does not exist.") := by
      unfold processRowBody
      rw [hs]
      dsimp only
      rw [hc]
      dsimp only
      unfold resolveSite get_location_type locationTypeGet
      rw [endswith_BR_not_DC row.name hbr, hbr]
      simp [hnot]
    unfold processRow
    rw [hbody]
  · intro rs rs1 rs2 row sl cl hs hc hdc hnot
    have hbody : processRowBody "State" "City" "Active" rs row =
        Except.error (rs2, "LocationType matching query does not exist.") := by
      unfold processRowBody
      rw [hs]
      dsimp only
      rw [hc]
      dsimp only
      unfold resolveSite get_location_type locationTypeGet
      rw [hdc]
      simp [hnot]
    unfold processRow
    rw [hbody]

/-- Witness for the amended C6 at concrete inputs: a store without the
Active status fails before any row with empty logs, a store without the
Branch type fails during a -BR row's step 3, and a store without the
Data Center type fails during a -DC row's step 3, each with the
row-named error line appended to the two creation logs. -/
theorem missing_reference_data_logging_witness :
    run ⟨[], 0, ["State", "City", "Data Center", "Branch"], []⟩
        [⟨"HQ-DC", "Austin", "TX"⟩] =
      Except.error
        (⟨⟨[], 0, ["State", "City", "Data Center", "Branch"], []⟩, [], []⟩,
         "Status matching query does not exist.") ∧
    processRow "State" "City" "Active"
        ⟨⟨[], 0, ["State", "City", "Data Center"], ["Active"]⟩, [], []⟩
        ⟨"X-BR", "Austin", "TX"⟩ =
      Except.error
        ({ store :=
             ⟨[⟨0, "Texas", "State", "Active", none⟩,
               ⟨1, "Austin", "City", "Active", some 0⟩],
              2, ["State", "City", "Data Center"], ["Active"]⟩
           logs :=
             [(LogLevel.info, "Created state location: Texas"),
              (LogLevel.info, "Created city location: Austin in Texas")] ++
             [(LogLevel.error,
               "Error processing location " ++ "X-BR" ++ ": " ++
                 "LocationType matching query does not exist.")]
           results := [] },
         "LocationType matching query does not exist.") ∧
    processRow "State" "City" "Active"
        ⟨⟨[], 0, ["State", "City", "Branch"], ["Active"]⟩, [], []⟩
        ⟨"X-DC", "Austin", "TX"⟩ =
      Except.error
        ({ store :=
             ⟨[⟨0, "Texas", "State", "Active", none⟩,
               ⟨1, "Austin", "City", "Active", some 0⟩],
              2, ["State", "City", "Branch"], ["Active"]⟩
           logs :=
             [(LogLevel.info, "Created state location: Texas"),
              (LogLevel.info, "Created city location: Austin in Texas")] ++
             [(LogLevel.error,
               "Error processing location " ++ "X-DC" ++ ": " ++
                 "LocationType matching query does not exist.")]
           results := [] },
         "LocationType matching query does not exist.") :=
  ⟨(missing_reference_data_logging
      ⟨[], 0, ["State", "City", "Data Center", "Branch"], []⟩
      [⟨"HQ-DC", "Austin", "TX"⟩]).2.2.1 (by decide) (by decide) (by decide),
   (missing_reference_data_logging
      ⟨[], 0, ["State", "City", "Data Center"], ["Active"]⟩ []).2.2.2.1
     ⟨⟨[], 0, ["State", "City", "Data Center"], ["Active"]⟩, [], []⟩
     ⟨⟨[⟨0, "Texas", "State", "Active", none⟩],
       1, ["State", "City", "Data Center"], ["Active"]⟩,
      [(LogLevel.info, "Created state location: Texas")], []⟩
     ⟨⟨[⟨0, "Texas", "State", "Active", none⟩,
        ⟨1, "Austin", "City", "Active", some 0⟩],
       2, ["State", "City", "Data Center"], ["Active"]⟩,
      [(LogLevel.info, "Created state location: Texas"),
       (LogLevel.info, "Created city location: Austin in Texas")], []⟩
     ⟨"X-BR", "Austin", "TX"⟩
     ⟨0, "Texas", "State", "Active", none⟩
     ⟨1, "Austin", "City", "Active", some 0⟩
     rfl rfl (by decide) (by decide),
   (missing_reference_data_logging
      ⟨[], 0, ["State", "City", "Branch"], ["Active"]⟩ []).2.2.2.2
     ⟨⟨[], 0, ["State", "City", "Branch"], ["Active"]⟩, [], []⟩
     ⟨⟨[⟨0, "Texas", "State", "Active", none⟩],
       1, ["State", "City", "Branch"], ["Active"]⟩,
      [(LogLevel.info, "Created state location: Texas")], []⟩
     ⟨⟨[⟨0, "Texas", "State", "Active", none⟩,
        ⟨1, "Austin", "City", "Active", some 0⟩],
       2, ["State", "City", "Branch"], ["Active"]⟩,
      [(LogLevel.info, "Created state location: Texas"),
       (LogLevel.info, "Created city location: Austin in Texas")], []⟩
     ⟨"X-DC", "Austin", "TX"⟩
     ⟨0, "Texas", "State", "Active", none⟩
     ⟨1, "Austin", "City", "Active", some 0⟩
     rfl rfl (by decide) (by decide)⟩

/-! ## Get-or-create case lemmas -/

lemma getOrCreate_found (s : Store) (q : LocQuery) (d : LocDefaults) (l : Location)
    (h : s.locations.filter (fun x => x.matchesQuery q) = [l]) :
    getOrCreate s q d = Except.ok (l, false, s) := by
  unfold getOrCreate
  rw [h]

lemma getOrCreate_create (s : Store) (q : LocQuery) (d : LocDefaults)
    (h : s.locations.filter (fun x => x.matchesQuery q) = []) :
    getOrCreate s q d =
      Except.ok
        (⟨s.nextId, q.name, q.location_type.getD (d.location_type.getD ""),
          d.status.getD "", q.parent.getD (d.parent.getD none)⟩, true,
         { s with
           locations := s.locations ++
             [⟨s.nextId, q.name, q.location_type.getD (d.location_type.getD ""),
               d.status.getD "", q.parent.getD (d.parent.getD none)⟩]
           nextId := s.nextId + 1 }) := by
  unfold getOrCreate
  rw [h]

lemma matchesQuery_name_only (l : Location) (n : String) :
    l.matchesQuery ⟨n, none, none⟩ = (l.name == n) := by
  simp [Location.matchesQuery]

/-- C1: the leaf-site upsert is keyed on the name alone.  The site
query matches on the name only (independent of city/state); with no
record of that name the leaf is created with the classified type,
Active status, and the row's City location as parent; with an existing
record of that name (whatever its type or parent) the record is
overwritten in place — type, status and parent reset to the freshly
computed values — and persisted, leaving the number of records
unchanged, so a row reusing a site name under a different city
relocates the existing record instead of duplicating it. -/
theorem site_upsert_keyed_on_name (rs : RunState) (row : CsvRow) (city : Location)
    (t : String) (ht : get_location_type rs.store row.name = Except.ok t) :
    (∀ l : Location, ∀ n : String, l.matchesQuery ⟨n, none, none⟩ = (l.name == n)) ∧
    (rs.store.locations.filter (fun x => x.name == row.name) = [] →
      resolveSite "Active" rs row city =
        Except.ok
          ⟨{ rs.store with
             locations := rs.store.locations ++
               [⟨rs.store.nextId, row.name, t, "Active", some city.id⟩]
             nextId := rs.store.nextId + 1 },
           rs.logs ++
             [(LogLevel.info,
               "Created location: " ++ row.name ++ " in " ++ row.city ++ ", " ++
                 normalize_state row.state)],
           rs.results ++ [rs.store.nextId]⟩) ∧
    (∀ l : Location, rs.store.locations.filter (fun x => x.name == row.name) = [l] →
      resolveSite "Active" rs row city =
        Except.ok
          ⟨{ rs.store with
             locations := rs.store.locations.map
               (fun x => if x.id == l.id then
                  { l with location_type := t, status := "Active", parent := some city.id }
                else x) },
           rs.logs ++
             [(LogLevel.info,
               "Updated location: " ++ l.name ++ " in " ++ row.city ++ ", " ++
                 normalize_state row.state)],
           rs.results ++ [l.id]⟩ ∧
      (rs.store.locations.map
        (fun x => if x.id == l.id then
           { l with location_type := t, status := "Active", parent := some city.id }
         else x)).length = rs.store.locations.length) := by
  refine ⟨fun l n => matchesQuery_name_only l n, ?_, ?_⟩
  · intro h
    have hf : rs.store.locations.filter
        (fun x => x.matchesQuery ⟨row.name, none, none⟩) = [] := by
      rw [List.filter_congr (fun x _ => matchesQuery_name_only x row.name)]
      exact h
    unfold resolveSite
    rw [ht]
    dsimp only
    rw [getOrCreate_create rs.store ⟨row.name, none, none⟩
      ⟨some t, some "Active", some (some city.id)⟩ hf]
    simp
  · intro l h
    have hf : rs.store.locations.filter
        (fun x => x.matchesQuery ⟨row.name, none, none⟩) = [l] := by
      rw [List.filter_congr (fun x _ => matchesQuery_name_only x row.name)]
      exact h
    refine ⟨?_, by rw [List.length_map]⟩
    unfold resolveSite
    rw [ht]
    dsimp only
    rw [getOrCreate_found rs.store ⟨row.name, none, none⟩
      ⟨some t, some "Active", some (some city.id)⟩ l hf]
    simp [saveLoc]

/-- Witness for C1: a store holding the single leaf (HQ-BR under city
id 3) processed against the row (HQ-BR, Denver, CO) with Denver's City
record having id 5 relocates the existing record to parent 5 without
adding a record. -/
theorem site_upsert_keyed_on_name_witness :
    resolveSite "Active"
        ⟨⟨[⟨7, "HQ-BR", "Branch", "Active", some 3⟩],
          8, ["State", "City", "Data Center", "Branch"], ["Active"]⟩, [], []⟩
        ⟨"HQ-BR", "Denver", "CO"⟩
        ⟨5, "Denver", "City", "Active", some 4⟩ =
      Except.ok
        ⟨{ (⟨[⟨7, "HQ-BR", "Branch", "Active", some 3⟩],
             8, ["State", "City", "Data Center", "Branch"], ["Active"]⟩ : Store) with
           locations := [⟨7, "HQ-BR", "Branch", "Active", some 3⟩].map
             (fun x => if x.id == 7 then
                { (⟨7, "HQ-BR", "Branch", "Active", some 3⟩ : Location) with
                  location_type := "Branch", status := "Active", parent := some 5 }
              else x) },
         [] ++
           [(LogLevel.info,
             "Updated location: " ++ "HQ-BR" ++ " in " ++ "Denver" ++ ", " ++
               normalize_state "CO")],
         [] ++ [7]⟩ :=
  ((site_upsert_keyed_on_name
      ⟨⟨[⟨7, "HQ-BR", "Branch", "Active", some 3⟩],
        8, ["State", "City", "Data Center", "Branch"], ["Active"]⟩, [], []⟩
      ⟨"HQ-BR", "Denver", "CO"⟩
      ⟨5, "Denver", "City", "Active", some 4⟩
      "Branch" rfl).2.2
    ⟨7, "HQ-BR", "Branch", "Active", some 3⟩ (by decide)).1

/-- C7: State and City resolution leaves existing records unchanged.
The State location is keyed by (name = normalized state, type State)
and the City location by (name = row's city verbatim, type City,
parent = the State location); when the keyed record already exists it
is returned as-is with the whole run state (store, logs) untouched —
no field modified, no Active default applied, no creation log — and
when absent it is created with Active status and a creation log. -/
theorem parent_resolution_frame (rs : RunState) (row : CsvRow) (st ct : Location) :
    (rs.store.locations.filter
        (fun x => x.matchesQuery ⟨normalize_state row.state, some "State", none⟩) = [st] →
      resolveState "State" "Active" rs row = Except.ok (st, rs)) ∧
    (rs.store.locations.filter
        (fun x => x.matchesQuery ⟨normalize_state row.state, some "State", none⟩) = [] →
      resolveState "State" "Active" rs row =
        Except.ok
          (⟨rs.store.nextId, normalize_state row.state, "State", "Active", none⟩,
           ⟨{ rs.store with
              locations := rs.store.locations ++
                [⟨rs.store.nextId, normalize_state row.state, "State", "Active", none⟩]
              nextId := rs.store.nextId + 1 },
            rs.logs ++
              [(LogLevel.info, "Created state location: " ++ normalize_state row.state)],
            rs.results⟩)) ∧
    (rs.store.locations.filter
        (fun x => x.matchesQuery ⟨row.city, some "City", some (some st.id)⟩) = [ct] →
      resolveCity "City" "Active" rs row st = Except.ok (ct, rs)) ∧
    (rs.store.locations.filter
        (fun x => x.matchesQuery ⟨row.city, some "City", some (some st.id)⟩) = [] →
      resolveCity "City" "Active" rs row st =
        Except.ok
          (⟨rs.store.nextId, row.city, "City", "Active", some st.id⟩,
           ⟨{ rs.store with
              locations := rs.store.locations ++
                [⟨rs.store.nextId, row.city, "City", "Active", some st.id⟩]
              nextId := rs.store.nextId + 1 },
            rs.logs ++
              [(LogLevel.info,
                "Created city location: " ++ row.city ++ " in " ++
                  normalize_state row.state)],
            rs.results⟩)) := by
  refine ⟨?_, ?_, ?_, ?_⟩
  · intro h
    unfold resolveState
    dsimp only
    rw [getOrCreate_found rs.store ⟨normalize_state row.state, some "State", none⟩
      ⟨none, some "Active", none⟩ st h]
    simp
  · intro h
    unfold resolveState
    dsimp only
    rw [getOrCreate_create rs.store ⟨normalize_state row.state, some "State", none⟩
      ⟨none, some "Active", none⟩ h]
    simp
  · intro h
    unfold resolveCity
    rw [getOrCreate_found rs.store ⟨row.city, some "City", some (some st.id)⟩
      ⟨none, some "Active", none⟩ ct h]
    simp
  · intro h
    unfold resolveCity
    rw [getOrCreate_create rs.store ⟨row.city, some "City", some (some st.id)⟩
      ⟨none, some "Active", none⟩ h]
    simp

/-- Witness for C7: with Texas and Austin already in the store, the row
(HQ-DC, Austin, TX) resolves both parents to the existing records with
the run state untouched. -/
theorem parent_resolution_frame_witness :
    resolveState "State" "Active"
        ⟨⟨[⟨0, "Texas", "State", "Active", none⟩,
           ⟨1, "Austin", "City", "Active", some 0⟩],
          2, ["State", "City", "Data Center", "Branch"], ["Active"]⟩, [], []⟩
        ⟨"HQ-DC", "Austin", "TX"⟩ =
      Except.ok
        (⟨0, "Texas", "State", "Active", none⟩,
         ⟨⟨[⟨0, "Texas", "State", "Active", none⟩,
            ⟨1, "Austin", "City", "Active", some 0⟩],
           2, ["State", "City", "Data Center", "Branch"], ["Active"]⟩, [], []⟩) ∧
    resolveCity "City" "Active"
        ⟨⟨[⟨0, "Texas", "State", "Active", none⟩,
           ⟨1, "Austin", "City", "Active", some 0⟩],
          2, ["State", "City", "Data Center", "Branch"], ["Active"]⟩, [], []⟩
        ⟨"HQ-DC", "Austin", "TX"⟩ ⟨0, "Texas", "State", "Active", none⟩ =
      Except.ok
        (⟨1, "Austin", "City", "Active", some 0⟩,
         ⟨⟨[⟨0, "Texas", "State", "Active", none⟩,
            ⟨1, "Austin", "City", "Active", some 0⟩],
           2, ["State", "City", "Data Center", "Branch"], ["Active"]⟩, [], []⟩) :=
  ⟨(parent_resolution_frame
      ⟨⟨[⟨0, "Texas", "State", "Active", none⟩,
         ⟨1, "Austin", "City", "Active", some 0⟩],
        2, ["State", "City", "Data Center", "Branch"], ["Active"]⟩, [], []⟩
      ⟨"HQ-DC", "Austin", "TX"⟩
      ⟨0, "Texas", "State", "Active", none⟩
      ⟨1, "Austin", "City", "Active", some 0⟩).1 (by decide),
   (parent_resolution_frame
      ⟨⟨[⟨0, "Texas", "State", "Active", none⟩,
         ⟨1, "Austin", "City", "Active", some 0⟩],
        2, ["State", "City", "Data Center", "Branch"], ["Active"]⟩, [], []⟩
      ⟨"HQ-DC", "Austin", "TX"⟩
      ⟨0, "Texas", "State", "Active", none⟩
      ⟨1, "Austin", "City", "Active", some 0⟩).2.2.1 (by decide)⟩

/-! ## Elimination lemmas for the row-processing pipeline -/

lemma resolveState_ok_elim {ST AC : String} {rs : RunState} {row : CsvRow}
    {l : Location} {rs1 : RunState}
    (h : resolveState ST AC rs row = Except.ok (l, rs1)) :
    ∃ created st,
      getOrCreate rs.store ⟨normalize_state row.state, some ST, none⟩
          ⟨none, some AC, none⟩ = Except.ok (l, created, st) ∧
      rs1 = ⟨st,
        rs.logs ++
          (if created then
            [(LogLevel.info, "Created state location: " ++ normalize_state row.state)]
           else []),
        rs.results⟩ := by
  unfold resolveState at h
  dsimp only at h
  cases hg : getOrCreate rs.store ⟨normalize_state row.state, some ST, none⟩
      ⟨none, some AC, none⟩ with
  | error e => rw [hg] at h; simp at h
  | ok trip =>
    obtain ⟨l0, c0, st0⟩ := trip
    rw [hg] at h
    dsimp only at h
    rw [Except.ok.injEq, Prod.mk.injEq] at h
    obtain ⟨rfl, rfl⟩ := h
    exact ⟨c0, st0, rfl, rfl⟩

lemma resolveCity_ok_elim {CT AC : String} {rs : RunState} {row : CsvRow}
    {sl l : Location} {rs1 : RunState}
    (h : resolveCity CT AC rs row sl = Except.ok (l, rs1)) :
    ∃ created st,
      getOrCreate rs.store ⟨row.city, some CT, some (some sl.id)⟩
          ⟨none, some AC, none⟩ = Except.ok (l, created, st) ∧
      rs1 = ⟨st,
        rs.logs ++
          (if created then
            [(LogLevel.info,
              "Created city location: " ++ row.city ++ " in " ++ normalize_state row.state)]
           else []),
        rs.results⟩ := by
  unfold resolveCity at h
  cases hg : getOrCreate rs.store ⟨row.city, some CT, some (some sl.id)⟩
      ⟨none, some AC, none⟩ with
  | error e => rw [hg] at h; simp at h
  | ok trip =>
    obtain ⟨l0, c0, st0⟩ := trip
    rw [hg] at h
    dsimp only at h
    rw [Except.ok.injEq, Prod.mk.injEq] at h
    obtain ⟨rfl, rfl⟩ := h
    exact ⟨c0, st0, rfl, rfl⟩

lemma resolveSite_ok_elim {AC : String} {rs : RunState} {row : CsvRow}
    {city : Location} {rs3 : RunState}
    (h : resolveSite AC rs row city = Except.ok rs3) :
    ∃ t site_location site_created st,
      get_location_type rs.store row.name = Except.ok t ∧
      getOrCreate rs.store ⟨row.name, none, none⟩
          ⟨some t, some AC, some (some city.id)⟩ =
        Except.ok (site_location, site_created, st) ∧
      rs3 = ⟨(if site_created then st
              else saveLoc st
                { site_location with
                  location_type := t, status := AC, parent := some city.id }),
        rs.logs ++
          [(LogLevel.info,
            (if site_created then "Created" else "Updated") ++ " location: " ++
              site_location.name ++ " in " ++ row.city ++ ", " ++
              normalize_state row.state)],
        rs.results ++ [site_location.id]⟩ := by
  unfold resolveSite at h
  cases hgt : get_location_type rs.store row.name with
  | error e => rw [hgt] at h; simp at h
  | ok t =>
    rw [hgt] at h
    dsimp only at h
    cases hg : getOrCreate rs.store ⟨row.name, none, none⟩
        ⟨some t, some AC, some (some city.id)⟩ with
    | error e => rw [hg] at h; simp at h
    | ok trip =>
      obtain ⟨l0, c0, st0⟩ := trip
      rw [hg] at h
      dsimp only at h
      refine ⟨t, l0, c0, st0, rfl, hg, ?_⟩
      cases c0 <;> simpa using h.symm

lemma processRowBody_ok_elim {ST CT AC : String} {rs : RunState} {row : CsvRow}
    {rs3 : RunState}
    (h : processRowBody ST CT AC rs row = Except.ok rs3) :
    ∃ sl rs1 cl rs2,
      resolveState ST AC rs row = Except.ok (sl, rs1) ∧
      resolveCity CT AC rs1 row sl = Except.ok (cl, rs2) ∧
      resolveSite AC rs2 row cl = Except.ok rs3 := by
  unfold processRowBody at h
  cases hs : resolveState ST AC rs row with
  | error e => rw [hs] at h; simp at h
  | ok p1 =>
    obtain ⟨sl, rs1⟩ := p1
    rw [hs] at h
    dsimp only at h
    cases hc : resolveCity CT AC rs1 row sl with
    | error e => rw [hc] at h; simp at h
    | ok p2 =>
      obtain ⟨cl, rs2⟩ := p2
      rw [hc] at h
      dsimp only at h
      cases hx : resolveSite AC rs2 row cl with
      | error e => rw [hx] at h; simp at h
      | ok rs3x =>
        rw [hx] at h
        dsimp only at h
        rw [Except.ok.injEq] at h
        exact ⟨sl, rs1, cl, rs2, rfl, hc, h ▸ hx⟩

lemma processRow_ok_iff {ST CT AC : String} {rs : RunState} {row : CsvRow}
    {rs3 : RunState} :
    processRow ST CT AC rs row = Except.ok rs3 ↔
      processRowBody ST CT AC rs row = Except.ok rs3 := by
  unfold processRow
  cases hb : processRowBody ST CT AC rs row with
  | error e => obtain ⟨rsE, m⟩ := e; simp
  | ok r => simp

lemma processRow_error_elim {ST CT AC : String} {rs : RunState} {row : CsvRow}
    {rsE : RunState} {m : String}
    (h : processRow ST CT AC rs row = Except.error (rsE, m)) :
    ∃ rsE0,
      processRowBody ST CT AC rs row = Except.error (rsE0, m) ∧
      rsE = { rsE0 with
              logs := rsE0.logs ++
                [(LogLevel.error,
                  "Error processing location " ++ row.name ++ ": " ++ m)] } := by
  unfold processRow at h
  cases hb : processRowBody ST CT AC rs row with
  | error e =>
    obtain ⟨rsE0, m0⟩ := e
    rw [hb] at h
    dsimp only at h
    rw [Except.error.injEq, Prod.mk.injEq] at h
    obtain ⟨h1, rfl⟩ := h
    exact ⟨rsE0, rfl, h1.symm⟩
  | ok r => rw [hb] at h; simp at h

/-! ## Stores only grow: committed writes are never rolled back -/

/-- The second store contains every record identity of the first, in
order, plus possibly some freshly created ones at the end (records may
have been mutated in place, but none is ever deleted). -/
def idsExtend (s s2 : Store) : Prop :=
  ∃ newIds, s2.locations.map (fun l => l.id) = s.locations.map (fun l => l.id) ++ newIds

lemma idsExtend_refl (s : Store) : idsExtend s s := ⟨[], by simp⟩

lemma idsExtend_trans {a b c : Store} (h1 : idsExtend a b) (h2 : idsExtend b c) :
    idsExtend a c := by
  obtain ⟨n1, e1⟩ := h1
  obtain ⟨n2, e2⟩ := h2
  exact ⟨n1 ++ n2, by rw [e2, e1, List.append_assoc]⟩

lemma getOrCreate_ok_cases {s : Store} {q : LocQuery} {d : LocDefaults}
    {l : Location} {c : Bool} {s2 : Store}
    (h : getOrCreate s q d = Except.ok (l, c, s2)) :
    (c = true ∧ s.locations.filter (fun x => x.matchesQuery q) = [] ∧
      l = ⟨s.nextId, q.name, q.location_type.getD (d.location_type.getD ""),
           d.status.getD "", q.parent.getD (d.parent.getD none)⟩ ∧
      s2 = { s with
             locations := s.locations ++
               [⟨s.nextId, q.name, q.location_type.getD (d.location_type.getD ""),
                 d.status.getD "", q.parent.getD (d.parent.getD none)⟩]
             nextId := s.nextId + 1 }) ∨
    (c = false ∧ s.locations.filter (fun x => x.matchesQuery q) = [l] ∧ s2 = s) := by
  unfold getOrCreate at h
  cases hf : s.locations.filter (fun x => x.matchesQuery q) with
  | nil =>
    rw [hf] at h
    dsimp only at h
    rw [Except.ok.injEq, Prod.mk.injEq, Prod.mk.injEq] at h
    obtain ⟨h1, h2, h3⟩ := h
    exact Or.inl ⟨h2.symm, rfl, h1.symm, h3.symm⟩
  | cons x rest =>
    cases rest with
    | nil =>
      rw [hf] at h
      dsimp only at h
      rw [Except.ok.injEq, Prod.mk.injEq, Prod.mk.injEq] at h
      obtain ⟨h1, h2, h3⟩ := h
      exact Or.inr ⟨h2.symm, h1 ▸ rfl, h3.symm⟩
    | cons y rest2 => rw [hf] at h; simp at h

lemma saveLoc_ids (s : Store) (l : Location) :
    (saveLoc s l).locations.map (fun x => x.id) = s.locations.map (fun x => x.id) := by
  unfold saveLoc
  dsimp only
  rw [List.map_map]
  apply List.map_congr_left
  intro x _
  dsimp only [Function.comp]
  split
  · next hcond => exact (beq_iff_eq.mp hcond).symm
  · rfl

lemma saveLoc_nextId (s : Store) (l : Location) : (saveLoc s l).nextId = s.nextId := rfl

lemma saveLoc_typeNames (s : Store) (l : Location) :
    (saveLoc s l).locationTypeNames = s.locationTypeNames := rfl

lemma saveLoc_length (s : Store) (l : Location) :
    (saveLoc s l).locations.length = s.locations.length := by
  have h := congrArg List.length (saveLoc_ids s l)
  simpa using h

lemma getOrCreate_idsExtend {s : Store} {q : LocQuery} {d : LocDefaults}
    {l : Location} {c : Bool} {s2 : Store}
    (h : getOrCreate s q d = Except.ok (l, c, s2)) : idsExtend s s2 := by
  rcases getOrCreate_ok_cases h with ⟨_, _, _, rfl⟩ | ⟨_, _, rfl⟩
  · exact ⟨[s.nextId], by simp⟩
  · exact idsExtend_refl _

lemma processRowBody_ok_idsExtend {ST CT AC : String} {rs : RunState} {row : CsvRow}
    {rs3 : RunState} (h : processRowBody ST CT AC rs row = Except.ok rs3) :
    idsExtend rs.store rs3.store := by
  obtain ⟨sl, rs1, cl, rs2, hs, hc, hx⟩ := processRowBody_ok_elim h
  obtain ⟨c1, st1, hg1, rfl⟩ := resolveState_ok_elim hs
  obtain ⟨c2, st2, hg2, rfl⟩ := resolveCity_ok_elim hc
  obtain ⟨t, sloc, c3, st3, hgt, hg3, rfl⟩ := resolveSite_ok_elim hx
  refine idsExtend_trans (getOrCreate_idsExtend hg1)
    (idsExtend_trans (getOrCreate_idsExtend hg2)
      (idsExtend_trans (getOrCreate_idsExtend hg3) ?_))
  cases c3
  · exact ⟨[], (saveLoc_ids st3 _).symm ▸ by simp [saveLoc_ids]⟩
  · exact idsExtend_refl st3

lemma processRowBody_error_idsExtend {ST CT AC : String} {rs : RunState} {row : CsvRow}
    {rsE : RunState} {m : String}
    (h : processRowBody ST CT AC rs row = Except.error (rsE, m)) :
    idsExtend rs.store rsE.store := by
  unfold processRowBody at h
  cases hs : resolveState ST AC rs row with
  | error e =>
    rw [hs] at h
    dsimp only at h
    rw [Except.error.injEq, Prod.mk.injEq] at h
    exact h.1 ▸ idsExtend_refl rs.store
  | ok p1 =>
    obtain ⟨sl, rs1⟩ := p1
    rw [hs] at h
    dsimp only at h
    obtain ⟨c1, st1, hg1, rfl⟩ := resolveState_ok_elim hs
    cases hc : resolveCity CT AC _ row sl with
    | error e =>
      rw [hc] at h
      dsimp only at h
      rw [Except.error.injEq, Prod.mk.injEq] at h
      exact h.1 ▸ getOrCreate_idsExtend hg1
    | ok p2 =>
      obtain ⟨cl, rs2⟩ := p2
      rw [hc] at h
      dsimp only at h
      obtain ⟨c2, st2, hg2, rfl⟩ := resolveCity_ok_elim hc
      cases hx : resolveSite AC _ row cl with
      | error e =>
        rw [hx] at h
        dsimp only at h
        rw [Except.error.injEq, Prod.mk.injEq] at h
        exact h.1 ▸ idsExtend_trans (getOrCreate_idsExtend hg1) (getOrCreate_idsExtend hg2)
      | ok rs3x => rw [hx] at h; simp at h

lemma runLoop_error_elim {ST CT AC : String} :
    ∀ (rows : List CsvRow) (rs : RunState) {e : RunState × String},
    runLoop ST CT AC rs rows = Except.error e →
    ∃ pre r post rs2, rows = pre ++ r :: post ∧
      runLoop ST CT AC rs pre = Except.ok rs2 ∧
      processRow ST CT AC rs2 r = Except.error e := by
  intro rows
  induction rows with
  | nil => intro rs e h; simp [runLoop] at h
  | cons row rest ih =>
    intro rs e h
    rw [show runLoop ST CT AC rs (row :: rest) =
        (match processRow ST CT AC rs row with
         | Except.ok rs2 => runLoop ST CT AC rs2 rest
         | Except.error e2 => Except.error e2) from rfl] at h
    cases hp : processRow ST CT AC rs row with
    | error e0 =>
      rw [hp] at h
      dsimp only at h
      rw [Except.error.injEq] at h
      exact ⟨[], row, rest, rs, rfl, rfl, h ▸ hp⟩
    | ok rs2 =>
      rw [hp] at h
      dsimp only at h
      obtain ⟨pre, r, post, rs3, hdec, hloop, herr⟩ := ih rs2 h
      refine ⟨row :: pre, r, post, rs3, by rw [hdec]; rfl, ?_, herr⟩
      rw [show runLoop ST CT AC rs (row :: pre) =
          (match processRow ST CT AC rs row with
           | Except.ok rs2 => runLoop ST CT AC rs2 pre
           | Except.error e2 => Except.error e2) from rfl]
      rw [hp]
      exact hloop

lemma processRow_ok_results {ST CT AC : String} {rs : RunState} {row : CsvRow}
    {rs2 : RunState} (h : processRow ST CT AC rs row = Except.ok rs2) :
    ∃ i, rs2.results = rs.results ++ [i] := by
  obtain ⟨sl, rs1, cl, rsm, hs, hc, hx⟩ :=
    processRowBody_ok_elim (processRow_ok_iff.mp h)
  obtain ⟨c1, st1, hg1, rfl⟩ := resolveState_ok_elim hs
  obtain ⟨c2, st2, hg2, rfl⟩ := resolveCity_ok_elim hc
  obtain ⟨t, sloc, c3, st3, hgt, hg3, rfl⟩ := resolveSite_ok_elim hx
  exact ⟨sloc.id, rfl⟩

lemma runLoop_ok_results {ST CT AC : String} :
    ∀ (rows : List CsvRow) (rs : RunState) {rsF : RunState},
    runLoop ST CT AC rs rows = Except.ok rsF →
    ∃ ids, rsF.results = rs.results ++ ids ∧ ids.length = rows.length := by
  intro rows
  induction rows with
  | nil =>
    intro rs rsF h
    rw [show runLoop ST CT AC rs [] = Except.ok rs from rfl, Except.ok.injEq] at h
    exact ⟨[], by rw [← h]; simp, rfl⟩
  | cons row rest ih =>
    intro rs rsF h
    rw [show runLoop ST CT AC rs (row :: rest) =
        (match processRow ST CT AC rs row with
         | Except.ok rs2 => runLoop ST CT AC rs2 rest
         | Except.error e2 => Except.error e2) from rfl] at h
    cases hp : processRow ST CT AC rs row with
    | error e0 => rw [hp] at h; simp at h
    | ok rs2 =>
      rw [hp] at h
      dsimp only at h
      obtain ⟨i, hi⟩ := processRow_ok_results hp
      obtain ⟨ids, hids, hlen⟩ := ih rs2 h
      exact ⟨[i] ++ ids, by rw [hids, hi, List.append_assoc], by simp [hlen]⟩

lemma run_ok_elim {s : Store} {rows : List CsvRow} {rsF : RunState} {m : String}
    (h : run s rows = Except.ok (rsF, m)) :
    locationTypeGet s "State" = Except.ok "State" ∧
    locationTypeGet s "City" = Except.ok "City" ∧
    statusGet s "Active" = Except.ok "Active" ∧
    runLoop "State" "City" "Active" ⟨s, [], []⟩ rows = Except.ok rsF ∧
    m = "Successfully processed " ++ toString rsF.results.length ++ " locations" := by
  unfold run at h
  cases h1 : locationTypeGet s "State" with
  | error e => rw [h1] at h; simp at h
  | ok st =>
    have hst : st = "State" := locationTypeGet_ok h1
    subst hst
    rw [h1] at h
    dsimp only at h
    cases h2 : locationTypeGet s "City" with
    | error e => rw [h2] at h; simp at h
    | ok ct =>
      have hct : ct = "City" := locationTypeGet_ok h2
      subst hct
      rw [h2] at h
      dsimp only at h
      cases h3 : statusGet s "Active" with
      | error e => rw [h3] at h; simp at h
      | ok ac =>
        have hac : ac = "Active" := by
          unfold statusGet at h3
          split at h3
          · exact (Except.ok.inj h3).symm
          · simp at h3
        subst hac
        rw [h3] at h
        dsimp only at h
        cases h4 : runLoop "State" "City" "Active" ⟨s, [], []⟩ rows with
        | error e => rw [h4] at h; simp at h
        | ok rsX =>
          rw [h4] at h
          dsimp only at h
          rw [Except.ok.injEq, Prod.mk.injEq] at h
          obtain ⟨rfl, rfl⟩ := h
          exact ⟨rfl, rfl, rfl, rfl, rfl⟩

/-- C5: abort-on-first-error without rollback.  A failing row logs an
error line carrying that row's name and the exception message and then
re-raises; a failing loop run decomposes as some successfully processed
prefix followed by the single failing row, the rows after it untouched;
the error state's store still holds every record identity committed by
the earlier rows (and the failing row's earlier steps) — nothing is
rolled back; and the summary message is produced only by a run whose
loop consumed every row successfully. -/
theorem abort_on_first_error :
    (∀ (ST CT AC : String) (rs : RunState) (row : CsvRow) (rsE : RunState) (m : String),
      processRow ST CT AC rs row = Except.error (rsE, m) →
      ∃ logs0, rsE.logs = logs0 ++
        [(LogLevel.error, "Error processing location " ++ row.name ++ ": " ++ m)]) ∧
    (∀ (ST CT AC : String) (rs : RunState) (rows : List CsvRow) (e : RunState × String),
      runLoop ST CT AC rs rows = Except.error e →
      ∃ pre r post rs2, rows = pre ++ r :: post ∧
        runLoop ST CT AC rs pre = Except.ok rs2 ∧
        processRow ST CT AC rs2 r = Except.error e) ∧
    (∀ (ST CT AC : String) (rs : RunState) (row : CsvRow) (rsE : RunState) (m : String),
      processRow ST CT AC rs row = Except.error (rsE, m) →
      idsExtend rs.store rsE.store) ∧
    (∀ (s : Store) (rows : List CsvRow) (rsF : RunState) (m : String),
      run s rows = Except.ok (rsF, m) →
      m = "Successfully processed " ++ toString rsF.results.length ++ " locations" ∧
      runLoop "State" "City" "Active" ⟨s, [], []⟩ rows = Except.ok rsF) := by
  refine ⟨?_, ?_, ?_, ?_⟩
  · intro ST CT AC rs row rsE m h
    obtain ⟨rsE0, hb, rfl⟩ := processRow_error_elim h
    exact ⟨rsE0.logs, rfl⟩
  · intro ST CT AC rs rows e h
    exact runLoop_error_elim rows rs h
  · intro ST CT AC rs row rsE m h
    obtain ⟨rsE0, hb, rfl⟩ := processRow_error_elim h
    have h2 := processRowBody_error_idsExtend hb
    exact h2
  · intro s rows rsF m h
    obtain ⟨_, _, _, h4, h5⟩ := run_ok_elim h
    exact ⟨h5, h4⟩

/-- Witness for C5: the failing row (BADNAME, Austin, TX) on the bare
reference store ends its log with the error line naming the row and the
message. -/
theorem abort_on_first_error_witness :
    ∃ logs0,
      ([(LogLevel.info, "Created state location: Texas"),
        (LogLevel.info, "Created city location: Austin in Texas"),
        (LogLevel.error,
         "Error processing location BADNAME: Location name BADNAME must end with either -DC or -BR")] :
        List (LogLevel × String)) =
      logs0 ++
        [(LogLevel.error,
          "Error processing location " ++ "BADNAME" ++ ": " ++
            "Location name BADNAME must end with either -DC or -BR")] :=
  abort_on_first_error.1 "State" "City" "Active" ⟨referenceStore, [], []⟩
    ⟨"BADNAME", "Austin", "TX"⟩
    ⟨⟨[⟨0, "Texas", "State", "Active", none⟩,
       ⟨1, "Austin", "City", "Active", some 0⟩],
      2, ["State", "City", "Data Center", "Branch"], ["Active"]⟩,
     [(LogLevel.info, "Created state location: Texas"),
      (LogLevel.info, "Created city location: Austin in Texas"),
      (LogLevel.error,
       "Error processing location BADNAME: Location name BADNAME must end with either -DC or -BR")],
     []⟩
    "Location name BADNAME must end with either -DC or -BR" rfl

/-- C8: result message and count — every successfully processed row
appends exactly one entry to the run's result collection (in file
order, repeats included), and a fully successful run returns exactly
"Successfully processed N locations" with N the number of rows. -/
theorem result_message_and_count :
    (∀ (ST CT AC : String) (rs : RunState) (row : CsvRow) (rs2 : RunState),
      processRow ST CT AC rs row = Except.ok rs2 →
      ∃ i, rs2.results = rs.results ++ [i]) ∧
    (∀ (s : Store) (rows : List CsvRow) (rsF : RunState) (m : String),
      run s rows = Except.ok (rsF, m) →
      rsF.results.length = rows.length ∧
      m = "Successfully processed " ++ toString rows.length ++ " locations") := by
  constructor
  · intro ST CT AC rs row rs2 h
    exact processRow_ok_results h
  · intro s rows rsF m h
    obtain ⟨_, _, _, h4, h5⟩ := run_ok_elim h
    obtain ⟨ids, hids, hlen⟩ := runLoop_ok_results rows ⟨s, [], []⟩ h4
    have hcount : rsF.results.length = rows.length := by
      rw [hids]
      simp [hlen]
    exact ⟨hcount, by rw [h5, hcount]⟩

/-- Witness for C8: processing the second CSV row of the end-to-end
scenario appends exactly one entry to the result collection. -/
theorem result_message_and_count_witness :
    ∃ i, ([2, 3] : List Nat) = [2] ++ [i] :=
  result_message_and_count.1 "State" "City" "Active"
    ⟨⟨[⟨0, "Texas", "State", "Active", none⟩,
       ⟨1, "Austin", "City", "Active", some 0⟩,
       ⟨2, "HQ-DC", "Data Center", "Active", some 1⟩],
      3, ["State", "City", "Data Center", "Branch"], ["Active"]⟩,
     [(LogLevel.info, "Created state location: Texas"),
      (LogLevel.info, "Created city location: Austin in Texas"),
      (LogLevel.info, "Created location: HQ-DC in Austin, Texas")],
     [2]⟩
    ⟨"BR1-BR", "Austin", "TX"⟩
    ⟨⟨[⟨0, "Texas", "State", "Active", none⟩,
       ⟨1, "Austin", "City", "Active", some 0⟩,
       ⟨2, "HQ-DC", "Data Center", "Active", some 1⟩,
       ⟨3, "BR1-BR", "Branch", "Active", some 1⟩],
      4, ["State", "City", "Data Center", "Branch"], ["Active"]⟩,
     [(LogLevel.info, "Created state location: Texas"),
      (LogLevel.info, "Created city location: Austin in Texas"),
      (LogLevel.info, "Created location: HQ-DC in Austin, Texas"),
      (LogLevel.info, "Created location: BR1-BR in Austin, Texas")],
     [2, 3]⟩ rfl

/-! ## Normalized state names never carry a leaf suffix -/

lemma char_toNat_ofNat {n : Nat} (h : n.isValidChar) : (Char.ofNat n).toNat = n := by
  rw [Char.ofNat, dif_pos h]
  rfl

lemma toLower_toNat (c : Char) :
    c.toLower.toNat =
      if 65 ≤ c.toNat ∧ c.toNat ≤ 90 then c.toNat + 32 else c.toNat := by
  unfold Char.toLower
  split
  · next hcond =>
    rw [if_pos ⟨hcond.1, hcond.2⟩]
    exact char_toNat_ofNat (Or.inl (by omega))
  · next hcond =>
    rw [if_neg (fun hc => hcond ⟨hc.1, hc.2⟩)]

lemma toLower_ne_upper {c y : Char} (hy : 65 ≤ y.toNat ∧ y.toNat ≤ 90) :
    c.toLower ≠ y := by
  intro he
  have h2 := congrArg Char.toNat he
  rw [toLower_toNat] at h2
  split at h2 <;> omega

lemma pyTitle_no_alpha_then_upper (s : String) (X Y : Char)
    (hXa : X.isAlpha = true) (hYa : Y.isAlpha = true)
    (hYu : 65 ≤ Y.toNat ∧ Y.toNat ≤ 90)
    (h : [X, Y] <:+ (pyTitle s).data) : False := by
  obtain ⟨t, ht⟩ := h
  have hlen : (pyTitle s).data.length = s.data.length := pyTitleGo_length s.data false
  have hlen2 : s.data.length = t.length + 2 := by
    rw [← hlen, ← ht]
    simp
  have hoX : (pyTitle s).data.getD t.length ' ' = X := by
    rw [← ht]
    have heq := @List.getElem?_append_right Char t [X, Y] t.length (Nat.le_refl t.length)
    simp [List.getD_eq_getElem?_getD, heq]
  have hoY : (pyTitle s).data.getD (t.length + 1) ' ' = Y := by
    rw [← ht]
    have heq := @List.getElem?_append_right Char t [X, Y] (t.length + 1)
      (Nat.le_succ_of_le (Nat.le_refl t.length))
    simp [List.getD_eq_getElem?_getD, heq]
  have hi1 : t.length < s.data.length := by omega
  have hi2 : t.length + 1 < s.data.length := by omega
  have hc1 := pyTitleGo_getD s.data false t.length hi1
  have hc2 := pyTitleGo_getD s.data false (t.length + 1) hi2
  rw [show (pyTitle s).data = pyTitleGo false s.data from rfl] at hoX hoY
  rw [hc2] at hoY
  rw [hc1] at hoX
  by_cases ha2 : (s.data.getD (t.length + 1) ' ').isAlpha
  · rw [if_pos ha2] at hoY
    have hb : (if t.length + 1 = 0 then false
        else (s.data.getD (t.length + 1 - 1) ' ').isAlpha) =
        (s.data.getD t.length ' ').isAlpha := by
      simp
    rw [hb] at hoY
    by_cases ha1 : (s.data.getD t.length ' ').isAlpha
    · rw [if_pos ha1] at hoY
      exact toLower_ne_upper hYu hoY
    · rw [if_neg ha1] at hoX
      rw [eq_false_of_ne_true ha1] at hoY
      rw [hoX] at ha1
      exact ha1 hXa
  · rw [if_neg ha2] at hoY
    rw [hoY] at ha2
    exact ha2 hYa

lemma lookup_mem : ∀ (l : List (String × String)) (a b : String),
    l.lookup a = some b → (a, b) ∈ l := by
  intro l
  induction l with
  | nil => intro a b h; simp at h
  | cons p rest ih =>
    intro a b h
    obtain ⟨k, v⟩ := p
    rw [List.lookup_cons] at h
    cases hak : a == k with
    | true =>
      rw [hak] at h
      dsimp only at h
      rw [Option.some.injEq] at h
      exact List.mem_cons.mpr (Or.inl (by rw [beq_iff_eq] at hak; rw [hak, h]))
    | false =>
      rw [hak] at h
      exact List.mem_cons.mpr (Or.inr (ih a b h))

lemma endswith_two (s : String) (x y z : Char)
    (h : endswith s (String.mk [x, y, z]) = true) : [y, z] <:+ s.data := by
  rw [endswith_iff_suffix] at h
  obtain ⟨t, ht⟩ := h
  exact ⟨t ++ [x], by rw [List.append_assoc]; exact ht⟩

lemma normalize_state_not_suffixed (st : String) :
    endswith (normalize_state st) "-DC" = false ∧
    endswith (normalize_state st) "-BR" = false := by
  unfold normalize_state
  cases hl : STATE_MAPPING.lookup st with
  | some full =>
    have hmem : (st, full) ∈ STATE_MAPPING := lookup_mem STATE_MAPPING st full hl
    have hall : ∀ p ∈ STATE_MAPPING,
        endswith p.2 "-DC" = false ∧ endswith p.2 "-BR" = false := by decide
    exact hall (st, full) hmem
  | none =>
    constructor
    · rw [Bool.eq_false_iff]
      intro hdc
      exact pyTitle_no_alpha_then_upper st 'D' 'C' (by decide) (by decide) (by decide)
        (endswith_two (pyTitle st) '-' 'D' 'C' hdc)
    · rw [Bool.eq_false_iff]
      intro hbr
      exact pyTitle_no_alpha_then_upper st 'B' 'R' (by decide) (by decide) (by decide)
        (endswith_two (pyTitle st) '-' 'B' 'R' hbr)

/-! ## Query filters and their transformation under creation and save -/

/-- The query used by step 1 for a normalized state name. -/
def stateQuery (full : String) : LocQuery := ⟨full, some "State", none⟩

/-- The query used by step 2 for a city name under a state record. -/
def cityQuery (city : String) (sid : Nat) : LocQuery := ⟨city, some "City", some (some sid)⟩

/-- The query used by step 3: the leaf name alone. -/
def siteQuery (n : String) : LocQuery := ⟨n, none, none⟩

/-- The records of the store matching a query (the lookup set of
`get_or_create`). -/
def sfilter (s : Store) (q : LocQuery) : List Location :=
  s.locations.filter (fun x => x.matchesQuery q)

lemma matches_stateQuery_iff (l : Location) (full : String) :
    l.matchesQuery (stateQuery full) = true ↔
      l.name = full ∧ l.location_type = "State" := by
  simp [Location.matchesQuery, stateQuery]

lemma matches_cityQuery_iff (l : Location) (city : String) (sid : Nat) :
    l.matchesQuery (cityQuery city sid) = true ↔
      l.name = city ∧ l.location_type = "City" ∧ l.parent = some sid := by
  simp [Location.matchesQuery, cityQuery, and_assoc]

lemma matches_siteQuery_iff (l : Location) (n : String) :
    l.matchesQuery (siteQuery n) = true ↔ l.name = n := by
  simp [Location.matchesQuery, siteQuery]

lemma unique_by_id {l : List Location} (h : (l.map (fun x => x.id)).Nodup)
    {x y : Location} (hx : x ∈ l) (hy : y ∈ l) (hxy : x.id = y.id) : x = y := by
  have hp : l.Pairwise (fun a b => a.id ≠ b.id) := (List.pairwise_map.mp h)
  by_contra hne
  exact (hp.forall (fun a b hab => (fun hba => hab hba.symm)) hx hy hne) hxy

lemma filter_map_repl (l : List Location) (a : Location) (p : Location → Bool)
    (hsame : ∀ x ∈ l, x.id = a.id → p x = p a) :
    (l.map (fun x => if x.id == a.id then a else x)).filter p =
      (l.filter p).map (fun x => if x.id == a.id then a else x) := by
  rw [List.filter_map]
  congr 1
  apply List.filter_congr
  intro x hx
  dsimp only [Function.comp]
  by_cases hid : (x.id == a.id) = true
  · rw [if_pos hid]
    exact ((hsame x hx (beq_iff_eq.mp hid))).symm
  · rw [if_neg hid]

lemma sfilter_saveLoc_no_match (s : Store) (a : Location) (q : LocQuery)
    (hold : ∀ x ∈ s.locations, x.id = a.id → x.matchesQuery q = false)
    (hnew : a.matchesQuery q = false) :
    sfilter (saveLoc s a) q = sfilter s q := by
  show ((s.locations.map fun x => if x.id == a.id then a else x).filter
      fun x => x.matchesQuery q) = _
  rw [filter_map_repl s.locations a _ (fun x hx hid => by rw [hold x hx hid, hnew])]
  have hfix : ∀ x ∈ s.locations.filter (fun x => x.matchesQuery q),
      (if x.id == a.id then a else x) = x := by
    intro x hx
    obtain ⟨hmem, hmat⟩ := List.mem_filter.mp hx
    rw [if_neg]
    intro hid
    rw [hold x hmem (beq_iff_eq.mp hid)] at hmat
    cases hmat
  rw [List.map_congr_left hfix]
  simp [sfilter]

lemma sfilter_saveLoc_match (s : Store) (a x0 : Location) (q : LocQuery)
    (hids : (s.locations.map (fun x => x.id)).Nodup)
    (hfound : sfilter s q = [x0]) (hid : a.id = x0.id)
    (hnew : a.matchesQuery q = true) :
    sfilter (saveLoc s a) q = [a] := by
  have hx0mem : x0 ∈ s.locations.filter (fun x => x.matchesQuery q) := by
    rw [show s.locations.filter (fun x => x.matchesQuery q) = [x0] from hfound]
    exact List.mem_cons_self x0 []
  obtain ⟨hx0l, hx0m⟩ := List.mem_filter.mp hx0mem
  show ((s.locations.map fun x => if x.id == a.id then a else x).filter
      fun x => x.matchesQuery q) = _
  have hsame : ∀ x ∈ s.locations, x.id = a.id → x.matchesQuery q = a.matchesQuery q := by
    intro x hx hxid
    have hx0eq : x = x0 := unique_by_id hids hx hx0l (hxid.trans hid)
    rw [hx0eq, hx0m, hnew]
  rw [filter_map_repl s.locations a _ hsame]
  rw [show s.locations.filter (fun x => x.matchesQuery q) = [x0] from hfound]
  simp [hid]

lemma sfilter_append (s : Store) (n : Location) (q : LocQuery) :
    sfilter { s with locations := s.locations ++ [n], nextId := s.nextId + 1 } q =
      sfilter s q ++ (if n.matchesQuery q then [n] else []) := by
  show (s.locations ++ [n]).filter (fun x => x.matchesQuery q) = _
  rw [List.filter_append]
  congr 1
  by_cases hm : n.matchesQuery q = true
  · simp [List.filter, hm]
  · rw [if_neg hm]
    simp only [List.filter, Bool.not_eq_true] at hm ⊢
    rw [hm]

/-! ## Invariants for re-running the import -/

/-- The name carries one of the two leaf suffixes. -/
def suffixed (n : String) : Bool :=
  endswith n "-DC" || endswith n "-BR"

/-- The type-record name the classifier resolves for a suffixed name. -/
def classifyStr (n : String) : String :=
  if endswith n "-DC" then "Data Center" else "Branch"

lemma get_location_type_ok_cases {s : Store} {n t : String}
    (h : get_location_type s n = Except.ok t) :
    (endswith n "-DC" = true ∧ t = "Data Center") ∨
    (endswith n "-DC" = false ∧ endswith n "-BR" = true ∧ t = "Branch") := by
  unfold get_location_type at h
  split at h
  · next hdc => exact Or.inl ⟨hdc, locationTypeGet_ok h⟩
  · next hdc =>
    split at h
    · next hbr =>
      exact Or.inr ⟨Bool.not_eq_true _ ▸ hdc, hbr, locationTypeGet_ok h⟩
    · simp at h

lemma get_location_type_provisioned {s : Store} {n : String}
    (hdc : "Data Center" ∈ s.locationTypeNames)
    (hbr : "Branch" ∈ s.locationTypeNames)
    (hsuf : suffixed n = true) :
    get_location_type s n = Except.ok (classifyStr n) := by
  unfold get_location_type classifyStr
  rcases Bool.or_eq_true_iff.mp hsuf with h | h
  · simp [h, locationTypeGet, hdc]
  · rw [endswith_BR_not_DC n h]
    simp [h, locationTypeGet, hbr]

lemma classifyStr_cases (n : String) :
    classifyStr n = "Data Center" ∨ classifyStr n = "Branch" := by
  unfold classifyStr
  split
  · exact Or.inl rfl
  · exact Or.inr rfl

/-- No row's city field coincides with any row's leaf name. -/
def cityFree (R : List CsvRow) : Prop :=
  ∀ r1 ∈ R, ∀ r2 ∈ R, r1.city ≠ r2.name

/-- Store invariant maintained by the import run: identities are
bounded and distinct, State-typed records never carry a leaf suffix,
and City-typed records are named by some row's city field. -/
def Pre (R : List CsvRow) (s : Store) : Prop :=
  (∀ l ∈ s.locations, l.id < s.nextId) ∧
  (s.locations.map (fun x => x.id)).Nodup ∧
  (∀ l ∈ s.locations, l.location_type = "State" →
    endswith l.name "-DC" = false ∧ endswith l.name "-BR" = false) ∧
  (∀ l ∈ s.locations, l.location_type = "City" → ∃ r ∈ R, l.name = r.city)

/-- The reference data the row steps need for a second pass: the row's
state, city and leaf lookups each hit exactly one record. -/
def preparedRow (s : Store) (r : CsvRow) : Prop :=
  ∃ st, sfilter s (stateQuery (normalize_state r.state)) = [st] ∧
    (∃ c, sfilter s (cityQuery r.city st.id) = [c]) ∧
    (∃ t1, sfilter s (siteQuery r.name) = [t1])

/-- A store transition the import may perform: it preserves the
invariant, the reference-data tables, singleton state and city lookup
sets with their exact witnesses, and singleton leaf lookup sets for
row names. -/
def Step (R : List CsvRow) (s s2 : Store) : Prop :=
  Pre R s →
    Pre R s2 ∧
    s2.locationTypeNames = s.locationTypeNames ∧
    s2.statusNames = s.statusNames ∧
    (∀ full st1, sfilter s (stateQuery full) = [st1] →
      sfilter s2 (stateQuery full) = [st1]) ∧
    (∀ city sid c1, sfilter s (cityQuery city sid) = [c1] →
      sfilter s2 (cityQuery city sid) = [c1]) ∧
    (∀ nm, suffixed nm = true → (∃ rn ∈ R, nm = rn.name) →
      (∃ t1, sfilter s (siteQuery nm) = [t1]) →
      ∃ t2, sfilter s2 (siteQuery nm) = [t2])

lemma Step_refl (R : List CsvRow) (s : Store) : Step R s s :=
  fun hP => ⟨hP, rfl, rfl, fun _ _ h => h, fun _ _ _ h => h, fun _ _ _ h => h⟩

lemma Step_trans {R : List CsvRow} {s s2 s3 : Store}
    (h1 : Step R s s2) (h2 : Step R s2 s3) : Step R s s3 := by
  intro hP
  obtain ⟨hP2, ht2, hs2, ha2, hb2, hc2⟩ := h1 hP
  obtain ⟨hP3, ht3, hs3, ha3, hb3, hc3⟩ := h2 hP2
  exact ⟨hP3, ht3.trans ht2, hs3.trans hs2,
    fun full st1 h => ha3 full st1 (ha2 full st1 h),
    fun city sid c1 h => hb3 city sid c1 (hb2 city sid c1 h),
    fun nm hsuf hmem h => hc3 nm hsuf hmem (hc2 nm hsuf hmem h)⟩

lemma Pre_append {R : List CsvRow} {s : Store} (n : Location)
    (hP : Pre R s) (hid : n.id = s.nextId)
    (hstate : n.location_type = "State" →
      endswith n.name "-DC" = false ∧ endswith n.name "-BR" = false)
    (hcity : n.location_type = "City" → ∃ r ∈ R, n.name = r.city) :
    Pre R { s with locations := s.locations ++ [n], nextId := s.nextId + 1 } := by
  obtain ⟨h1, h2, h3, h4⟩ := hP
  refine ⟨?_, ?_, ?_, ?_⟩
  · intro l hl
    rcases List.mem_append.mp hl with h | h
    · exact Nat.lt_succ_of_lt (h1 l h)
    · rw [List.mem_singleton.mp h, hid]
      exact Nat.lt_succ_self _
  · show ((s.locations ++ [n]).map (fun x => x.id)).Nodup
    rw [List.map_append, List.nodup_append]
    refine ⟨h2, List.nodup_singleton _, ?_⟩
    intro a ha hb
    obtain ⟨x, hx, rfl⟩ := List.mem_map.mp ha
    rw [List.map_singleton, List.mem_singleton] at hb
    have := h1 x hx
    rw [hb, hid] at this
    exact Nat.lt_irrefl _ this
  · intro l hl ht
    rcases List.mem_append.mp hl with h | h
    · exact h3 l h ht
    · rw [List.mem_singleton.mp h] at ht ⊢
      exact hstate ht
  · intro l hl ht
    rcases List.mem_append.mp hl with h | h
    · exact h4 l h ht
    · rw [List.mem_singleton.mp h] at ht ⊢
      exact hcity ht

lemma saveLoc_mem_shape {s : Store} {a : Location} {l : Location}
    (hl : l ∈ (saveLoc s a).locations) : l = a ∨ l ∈ s.locations := by
  simp only [saveLoc] at hl
  obtain ⟨x, hx, rfl⟩ := List.mem_map.mp hl
  by_cases hxi : (x.id == a.id) = true
  · left
    rw [if_pos hxi]
  · right
    rw [if_neg hxi]
    exact hx

lemma Pre_save {R : List CsvRow} {s : Store} {t0 : Location} (hP : Pre R s)
    (hmem : t0 ∈ s.locations) (a : Location) (hid : a.id = t0.id)
    (ha : a.location_type = "Data Center" ∨ a.location_type = "Branch") :
    Pre R (saveLoc s a) := by
  obtain ⟨h1, h2, h3, h4⟩ := hP
  refine ⟨?_, ?_, ?_, ?_⟩
  · intro l hl
    rw [saveLoc_nextId]
    rcases saveLoc_mem_shape hl with rfl | h
    · rw [hid]
      exact h1 t0 hmem
    · exact h1 l h
  · show ((saveLoc s a).locations.map (fun x => x.id)).Nodup
    rw [saveLoc_ids]
    exact h2
  · intro l hl ht
    rcases saveLoc_mem_shape hl with rfl | h
    · rcases ha with h' | h' <;> rw [h'] at ht <;> exact absurd ht (by decide)
    · exact h3 l h ht
  · intro l hl ht
    rcases saveLoc_mem_shape hl with rfl | h
    · rcases ha with h' | h' <;> rw [h'] at ht <;> exact absurd ht (by decide)
    · exact h4 l h ht

lemma Step_stateAppend {R : List CsvRow} {s : Store} {full0 : String}
    (hns : endswith full0 "-DC" = false ∧ endswith full0 "-BR" = false)
    (hguard : sfilter s (stateQuery full0) = []) :
    Step R s { s with
      locations := s.locations ++ [⟨s.nextId, full0, "State", "Active", none⟩]
      nextId := s.nextId + 1 } := by
  intro hP
  refine ⟨Pre_append _ hP rfl (fun _ => hns) (fun hc => by simp at hc),
    rfl, rfl, ?_, ?_, ?_⟩
  · intro full st1 h
    have hnm : Location.matchesQuery ⟨s.nextId, full0, "State", "Active", none⟩
        (stateQuery full) = false := by
      rw [Bool.eq_false_iff]
      intro hm
      obtain ⟨hname, -⟩ := (matches_stateQuery_iff _ full).mp hm
      rw [show (⟨s.nextId, full0, "State", "Active", none⟩ : Location).name = full0
        from rfl] at hname
      rw [← hname, hguard] at h
      exact absurd h (by simp)
    rw [sfilter_append, hnm]
    simp [h]
  · intro city sid c1 h
    have hnm : Location.matchesQuery ⟨s.nextId, full0, "State", "Active", none⟩
        (cityQuery city sid) = false := by
      rw [Bool.eq_false_iff]
      intro hm
      obtain ⟨-, htype, -⟩ := (matches_cityQuery_iff _ city sid).mp hm
      simp at htype
    rw [sfilter_append, hnm]
    simp [h]
  · intro nm hsuf hmem h
    obtain ⟨t1, h⟩ := h
    have hnm : Location.matchesQuery ⟨s.nextId, full0, "State", "Active", none⟩
        (siteQuery nm) = false := by
      rw [Bool.eq_false_iff]
      intro hm
      have hname := (matches_siteQuery_iff _ nm).mp hm
      rw [show (⟨s.nextId, full0, "State", "Active", none⟩ : Location).name = full0
        from rfl] at hname
      rw [← hname] at hsuf
      unfold suffixed at hsuf
      rw [hns.1, hns.2] at hsuf
      exact absurd hsuf (by decide)
    refine ⟨t1, ?_⟩
    rw [sfilter_append, hnm]
    simp [h]

lemma Step_cityAppend {R : List CsvRow} {s : Store} {city0 : String} {sid0 : Nat}
    (hfree : cityFree R) (hcity0 : ∃ rc ∈ R, city0 = rc.city)
    (hguard : sfilter s (cityQuery city0 sid0) = []) :
    Step R s { s with
      locations := s.locations ++ [⟨s.nextId, city0, "City", "Active", some sid0⟩]
      nextId := s.nextId + 1 } := by
  intro hP
  refine ⟨Pre_append _ hP rfl (fun hc => by simp at hc)
      (fun _ => hcity0), rfl, rfl, ?_, ?_, ?_⟩
  · intro full st1 h
    have hnm : Location.matchesQuery ⟨s.nextId, city0, "City", "Active", some sid0⟩
        (stateQuery full) = false := by
      rw [Bool.eq_false_iff]
      intro hm
      obtain ⟨-, htype⟩ := (matches_stateQuery_iff _ full).mp hm
      simp at htype
    rw [sfilter_append, hnm]
    simp [h]
  · intro city sid c1 h
    have hnm : Location.matchesQuery ⟨s.nextId, city0, "City", "Active", some sid0⟩
        (cityQuery city sid) = false := by
      rw [Bool.eq_false_iff]
      intro hm
      obtain ⟨hname, -, hpar⟩ := (matches_cityQuery_iff _ city sid).mp hm
      rw [show (⟨s.nextId, city0, "City", "Active", some sid0⟩ : Location).name = city0
        from rfl] at hname
      rw [show (⟨s.nextId, city0, "City", "Active", some sid0⟩ : Location).parent =
        some sid0 from rfl, Option.some.injEq] at hpar
      rw [← hname, ← hpar, hguard] at h
      exact absurd h (by simp)
    rw [sfilter_append, hnm]
    simp [h]
  · intro nm hsuf hmem h
    obtain ⟨t1, h⟩ := h
    obtain ⟨rn, hrn, rfl⟩ := hmem
    obtain ⟨rc, hrc, rfl⟩ := hcity0
    have hnm : Location.matchesQuery ⟨s.nextId, rc.city, "City", "Active", some sid0⟩
        (siteQuery rn.name) = false := by
      rw [Bool.eq_false_iff]
      intro hm
      have hname := (matches_siteQuery_iff _ rn.name).mp hm
      exact hfree rc hrc rn hrn hname
    refine ⟨t1, ?_⟩
    rw [sfilter_append, hnm]
    simp [h]

lemma Step_siteAppend {R : List CsvRow} {s : Store} {n0 : String} {t : String} {cid : Nat}
    (ht : t = "Data Center" ∨ t = "Branch")
    (hguard : sfilter s (siteQuery n0) = []) :
    Step R s { s with
      locations := s.locations ++ [⟨s.nextId, n0, t, "Active", some cid⟩]
      nextId := s.nextId + 1 } := by
  intro hP
  have hnotstate : ¬((⟨s.nextId, n0, t, "Active", some cid⟩ : Location).location_type =
      "State") := by
    rcases ht with h' | h' <;> rw [show (⟨s.nextId, n0, t, "Active", some cid⟩ :
      Location).location_type = t from rfl, h'] <;> decide
  have hnotcity : ¬((⟨s.nextId, n0, t, "Active", some cid⟩ : Location).location_type =
      "City") := by
    rcases ht with h' | h' <;> rw [show (⟨s.nextId, n0, t, "Active", some cid⟩ :
      Location).location_type = t from rfl, h'] <;> decide
  refine ⟨Pre_append _ hP rfl (fun hc => absurd hc hnotstate)
      (fun hc => absurd hc hnotcity), rfl, rfl, ?_, ?_, ?_⟩
  · intro full st1 h
    have hnm : Location.matchesQuery ⟨s.nextId, n0, t, "Active", some cid⟩
        (stateQuery full) = false := by
      rw [Bool.eq_false_iff]
      intro hm
      exact hnotstate ((matches_stateQuery_iff _ full).mp hm).2
    rw [sfilter_append, hnm]
    simp [h]
  · intro city sid c1 h
    have hnm : Location.matchesQuery ⟨s.nextId, n0, t, "Active", some cid⟩
        (cityQuery city sid) = false := by
      rw [Bool.eq_false_iff]
      intro hm
      exact hnotcity ((matches_cityQuery_iff _ city sid).mp hm).2.1
    rw [sfilter_append, hnm]
    simp [h]
  · intro nm hsuf hmem h
    obtain ⟨t1, h⟩ := h
    have hnm : Location.matchesQuery ⟨s.nextId, n0, t, "Active", some cid⟩
        (siteQuery nm) = false := by
      rw [Bool.eq_false_iff]
      intro hm
      have hname := (matches_siteQuery_iff _ nm).mp hm
      rw [show (⟨s.nextId, n0, t, "Active", some cid⟩ : Location).name = n0
        from rfl] at hname
      rw [← hname, hguard] at h
      exact absurd h (by simp)
    refine ⟨t1, ?_⟩
    rw [sfilter_append, hnm]
    simp [h]

lemma Step_save {R : List CsvRow} {s : Store} {t0 a : Location} {nm0 : String}
    (hfree : cityFree R)
    (hfound : sfilter s (siteQuery nm0) = [t0])
    (hsuf0 : suffixed nm0 = true)
    (hname0 : ∃ rn ∈ R, nm0 = rn.name)
    (haid : a.id = t0.id) (haname : a.name = t0.name)
    (hatype : a.location_type = "Data Center" ∨ a.location_type = "Branch") :
    Step R s (saveLoc s a) := by
  intro hP
  obtain ⟨h1, h2, h3, h4⟩ := hP
  have ht0pair : t0 ∈ s.locations ∧ t0.matchesQuery (siteQuery nm0) = true := by
    have hmem : t0 ∈ s.locations.filter (fun x => x.matchesQuery (siteQuery nm0)) := by
      rw [show s.locations.filter (fun x => x.matchesQuery (siteQuery nm0)) = [t0]
        from hfound]
      exact List.mem_cons_self _ _
    exact List.mem_filter.mp hmem
  have ht0name : t0.name = nm0 := (matches_siteQuery_iff t0 nm0).mp ht0pair.2
  have ht0state : ∀ full, t0.matchesQuery (stateQuery full) = false := by
    intro full
    rw [Bool.eq_false_iff]
    intro hm
    obtain ⟨hd, hb⟩ := h3 t0 ht0pair.1 ((matches_stateQuery_iff t0 full).mp hm).2
    rw [ht0name] at hd hb
    unfold suffixed at hsuf0
    rw [hd, hb] at hsuf0
    exact absurd hsuf0 (by decide)
  have ht0city : ∀ city sid, t0.matchesQuery (cityQuery city sid) = false := by
    intro city sid
    rw [Bool.eq_false_iff]
    intro hm
    obtain ⟨rc, hrc, hnc⟩ := h4 t0 ht0pair.1 ((matches_cityQuery_iff t0 city sid).mp hm).2.1
    obtain ⟨rn, hrn, hnm⟩ := hname0
    rw [ht0name, hnm] at hnc
    exact hfree rc hrc rn hrn hnc.symm
  have hrepl_eq : ∀ x ∈ s.locations, x.id = a.id → x = t0 := by
    intro x hx hxid
    exact unique_by_id h2 hx ht0pair.1 (by rw [hxid, haid])
  have hastate : ∀ full, a.matchesQuery (stateQuery full) = false := by
    intro full
    rw [Bool.eq_false_iff]
    intro hm
    have htp := ((matches_stateQuery_iff a full).mp hm).2
    rcases hatype with h' | h' <;> rw [h'] at htp <;> exact absurd htp (by decide)
  have hacity : ∀ city sid, a.matchesQuery (cityQuery city sid) = false := by
    intro city sid
    rw [Bool.eq_false_iff]
    intro hm
    have htp := ((matches_cityQuery_iff a city sid).mp hm).2.1
    rcases hatype with h' | h' <;> rw [h'] at htp <;> exact absurd htp (by decide)
  refine ⟨Pre_save ⟨h1, h2, h3, h4⟩ ht0pair.1 a haid hatype, rfl, rfl, ?_, ?_, ?_⟩
  · intro full st1 h
    rw [sfilter_saveLoc_no_match s a (stateQuery full)
      (fun x hx hxid => by rw [hrepl_eq x hx hxid]; exact ht0state full) (hastate full)]
    exact h
  · intro city sid c1 h
    rw [sfilter_saveLoc_no_match s a (cityQuery city sid)
      (fun x hx hxid => by rw [hrepl_eq x hx hxid]; exact ht0city city sid)
      (hacity city sid)]
    exact h
  · intro nm hsuf hmem h
    by_cases hnmeq : nm = nm0
    · subst hnmeq
      exact ⟨a, sfilter_saveLoc_match s a t0 (siteQuery nm) h2 hfound haid
        ((matches_siteQuery_iff a nm).mpr (haname.trans ht0name))⟩
    · obtain ⟨t1, h⟩ := h
      refine ⟨t1, ?_⟩
      rw [sfilter_saveLoc_no_match s a (siteQuery nm) ?_ ?_]
      · exact h
      · intro x hx hxid
        rw [hrepl_eq x hx hxid, Bool.eq_false_iff]
        intro hm
        have heq := (matches_siteQuery_iff t0 nm).mp hm
        rw [ht0name] at heq
        exact hnmeq heq.symm
      · rw [Bool.eq_false_iff]
        intro hm
        have := (matches_siteQuery_iff a nm).mp hm
        rw [haname, ht0name] at this
        exact hnmeq this.symm

lemma resolveState_cases {rs : RunState} {row : CsvRow} {sl : Location} {rs1 : RunState}
    (h : resolveState "State" "Active" rs row = Except.ok (sl, rs1)) :
    (rs1.store = rs.store ∧
      sfilter rs.store (stateQuery (normalize_state row.state)) = [sl]) ∨
    (sfilter rs.store (stateQuery (normalize_state row.state)) = [] ∧
      sl = ⟨rs.store.nextId, normalize_state row.state, "State", "Active", none⟩ ∧
      rs1.store = { rs.store with
        locations := rs.store.locations ++
          [⟨rs.store.nextId, normalize_state row.state, "State", "Active", none⟩]
        nextId := rs.store.nextId + 1 }) := by
  obtain ⟨created, st, hg, rfl⟩ := resolveState_ok_elim h
  rcases getOrCreate_ok_cases hg with ⟨-, hf, hl, hs⟩ | ⟨-, hf, hs⟩
  · refine Or.inr ⟨hf, ?_, ?_⟩
    · rw [hl]
      rfl
    · rw [hs]
      rfl
  · exact Or.inl ⟨hs, hf⟩

lemma resolveCity_cases {rs : RunState} {row : CsvRow} {sl cl : Location} {rs1 : RunState}
    (h : resolveCity "City" "Active" rs row sl = Except.ok (cl, rs1)) :
    (rs1.store = rs.store ∧
      sfilter rs.store (cityQuery row.city sl.id) = [cl]) ∨
    (sfilter rs.store (cityQuery row.city sl.id) = [] ∧
      cl = ⟨rs.store.nextId, row.city, "City", "Active", some sl.id⟩ ∧
      rs1.store = { rs.store with
        locations := rs.store.locations ++
          [⟨rs.store.nextId, row.city, "City", "Active", some sl.id⟩]
        nextId := rs.store.nextId + 1 }) := by
  obtain ⟨created, st, hg, rfl⟩ := resolveCity_ok_elim h
  rcases getOrCreate_ok_cases hg with ⟨-, hf, hl, hs⟩ | ⟨-, hf, hs⟩
  · refine Or.inr ⟨hf, ?_, ?_⟩
    · rw [hl]
      rfl
    · rw [hs]
      rfl
  · exact Or.inl ⟨hs, hf⟩

lemma resolveSite_cases {rs : RunState} {row : CsvRow} {cl : Location} {rs3 : RunState}
    (h : resolveSite "Active" rs row cl = Except.ok rs3) :
    ∃ t, get_location_type rs.store row.name = Except.ok t ∧
      ((sfilter rs.store (siteQuery row.name) = [] ∧
        rs3.store = { rs.store with
          locations := rs.store.locations ++
            [⟨rs.store.nextId, row.name, t, "Active", some cl.id⟩]
          nextId := rs.store.nextId + 1 }) ∨
       (∃ t0, sfilter rs.store (siteQuery row.name) = [t0] ∧
        rs3.store = saveLoc rs.store
          { t0 with location_type := t, status := "Active", parent := some cl.id })) := by
  obtain ⟨t, sloc, c3, st3, hgt, hg3, rfl⟩ := resolveSite_ok_elim h
  refine ⟨t, hgt, ?_⟩
  rcases getOrCreate_ok_cases hg3 with ⟨hc, hf, hl, hs⟩ | ⟨hc, hf, hs⟩
  · subst hc
    refine Or.inl ⟨hf, ?_⟩
    dsimp only [if_true]
    rw [hs, hl]
    rfl
  · subst hc
    refine Or.inr ⟨sloc, hf, ?_⟩
    rw [hs]
    simp

lemma processRow_run1 {R : List CsvRow} {rs rs' : RunState} {row : CsvRow}
    (hfree : cityFree R) (hrow : row ∈ R)
    (h : processRow "State" "City" "Active" rs row = Except.ok rs') :
    suffixed row.name = true ∧
    Step R rs.store rs'.store ∧
    (Pre R rs.store →
      (∃ st, sfilter rs'.store (stateQuery (normalize_state row.state)) = [st] ∧
        ∃ c, sfilter rs'.store (cityQuery row.city st.id) = [c]) ∧
      (∃ t1, sfilter rs'.store (siteQuery row.name) = [t1])) := by
  obtain ⟨sl, rs1, cl, rs2, hs, hc, hx⟩ := processRowBody_ok_elim (processRow_ok_iff.mp h)
  obtain ⟨t, hgt, hsite⟩ := resolveSite_cases hx
  have hsuf : suffixed row.name = true := by
    unfold suffixed
    rcases get_location_type_ok_cases hgt with ⟨hdl, -⟩ | ⟨-, hbl, -⟩
    · simp [hdl]
    · simp [hbl]
  have ht2 : t = "Data Center" ∨ t = "Branch" := by
    rcases get_location_type_ok_cases hgt with ⟨-, hh⟩ | ⟨-, -, hh⟩
    · exact Or.inl hh
    · exact Or.inr hh
  have hstep1 : Step R rs.store rs1.store ∧
      sfilter rs1.store (stateQuery (normalize_state row.state)) = [sl] := by
    rcases resolveState_cases hs with ⟨heq, hf⟩ | ⟨hguard, hsl, heq⟩
    · rw [heq]
      exact ⟨Step_refl R rs.store, hf⟩
    · rw [heq]
      refine ⟨Step_stateAppend (normalize_state_not_suffixed row.state) hguard, ?_⟩
      rw [sfilter_append, hguard, hsl]
      rw [(matches_stateQuery_iff _ _).mpr ⟨rfl, rfl⟩]
      rfl
  have hstep2 : Step R rs1.store rs2.store ∧
      sfilter rs2.store (cityQuery row.city sl.id) = [cl] := by
    rcases resolveCity_cases hc with ⟨heq, hf⟩ | ⟨hguard, hcl, heq⟩
    · rw [heq]
      exact ⟨Step_refl R rs1.store, hf⟩
    · rw [heq]
      refine ⟨Step_cityAppend hfree ⟨row, hrow, rfl⟩ hguard, ?_⟩
      rw [sfilter_append, hguard, hcl]
      rw [(matches_cityQuery_iff _ _ _).mpr ⟨rfl, rfl, rfl⟩]
      rfl
  have hstep3 : Step R rs2.store rs'.store ∧
      (Pre R rs2.store → ∃ t1, sfilter rs'.store (siteQuery row.name) = [t1]) := by
    rcases hsite with ⟨hguard, heq⟩ | ⟨t0, hfound, heq⟩
    · rw [heq]
      refine ⟨Step_siteAppend ht2 hguard, ?_⟩
      intro _
      refine ⟨⟨rs2.store.nextId, row.name, t, "Active", some cl.id⟩, ?_⟩
      rw [sfilter_append, hguard]
      rw [(matches_siteQuery_iff _ _).mpr rfl]
      rfl
    · have ht0pair : t0 ∈ rs2.store.locations ∧
          t0.matchesQuery (siteQuery row.name) = true := by
        have hmem : t0 ∈ rs2.store.locations.filter
            (fun x => x.matchesQuery (siteQuery row.name)) := by
          rw [show rs2.store.locations.filter
            (fun x => x.matchesQuery (siteQuery row.name)) = [t0] from hfound]
          exact List.mem_cons_self _ _
        exact List.mem_filter.mp hmem
      have ht0name : t0.name = row.name := (matches_siteQuery_iff t0 row.name).mp ht0pair.2
      rw [heq]
      refine ⟨Step_save hfree hfound hsuf ⟨row, hrow, rfl⟩ rfl rfl ht2, ?_⟩
      intro hP2
      refine ⟨{ t0 with location_type := t, status := "Active", parent := some cl.id },
        sfilter_saveLoc_match rs2.store _ t0 (siteQuery row.name) hP2.2.1 hfound rfl
          ((matches_siteQuery_iff _ _).mpr ht0name)⟩
  refine ⟨hsuf, Step_trans hstep1.1 (Step_trans hstep2.1 hstep3.1), ?_⟩
  intro hP
  have o1 := hstep1.1 hP
  have o2 := hstep2.1 o1.1
  have o3 := hstep3.1 o2.1
  refine ⟨⟨sl, ?_, cl, ?_⟩, hstep3.2 o2.1⟩
  · exact o3.2.2.2.1 _ _ (o2.2.2.2.1 _ _ hstep1.2)
  · exact o3.2.2.2.2.1 _ _ _ hstep2.2

lemma runLoop_run1 {R : List CsvRow} (hfree : cityFree R) :
    ∀ (todo : List CsvRow) (rs rsF : RunState),
    (∀ r ∈ todo, r ∈ R) →
    runLoop "State" "City" "Active" rs todo = Except.ok rsF →
    Step R rs.store rsF.store ∧
    (Pre R rs.store → ∀ r ∈ todo, suffixed r.name = true ∧
      (∃ st, sfilter rsF.store (stateQuery (normalize_state r.state)) = [st] ∧
        ∃ c, sfilter rsF.store (cityQuery r.city st.id) = [c]) ∧
      (∃ t1, sfilter rsF.store (siteQuery r.name) = [t1])) := by
  intro todo
  induction todo with
  | nil =>
    intro rs rsF _ h
    rw [show runLoop "State" "City" "Active" rs [] = Except.ok rs from rfl,
      Except.ok.injEq] at h
    subst h
    exact ⟨Step_refl R rs.store, fun _ r hr => absurd hr (List.not_mem_nil r)⟩
  | cons row rest ih =>
    intro rs rsF hmem h
    rw [show runLoop "State" "City" "Active" rs (row :: rest) =
        (match processRow "State" "City" "Active" rs row with
         | Except.ok rs2 => runLoop "State" "City" "Active" rs2 rest
         | Except.error e2 => Except.error e2) from rfl] at h
    cases hp : processRow "State" "City" "Active" rs row with
    | error e0 => rw [hp] at h; simp at h
    | ok rs2 =>
      rw [hp] at h
      dsimp only at h
      obtain ⟨hstep2, hfacts2⟩ := ih rs2 rsF
        (fun r hr => hmem r (List.mem_cons_of_mem row hr)) h
      obtain ⟨hsuf, hstep1, hfacts1⟩ :=
        processRow_run1 hfree (hmem row (List.mem_cons_self row rest)) hp
      refine ⟨Step_trans hstep1 hstep2, ?_⟩
      intro hP r hr
      have hPre2 : Pre R rs2.store := (hstep1 hP).1
      rcases List.mem_cons.mp hr with rfl | hr2
      · obtain ⟨⟨st, hst, c, hcf⟩, t1, htf⟩ := hfacts1 hP
        have o2 := hstep2 hPre2
        refine ⟨hsuf, ⟨st, o2.2.2.2.1 _ _ hst, c, o2.2.2.2.2.1 _ _ _ hcf⟩, ?_⟩
        exact o2.2.2.2.2.2 r.name hsuf ⟨r, hmem r hr, rfl⟩ ⟨t1, htf⟩
      · exact hfacts2 hPre2 r hr2

lemma resolveState_found {rs : RunState} {row : CsvRow} {st0 : Location}
    (h : sfilter rs.store (stateQuery (normalize_state row.state)) = [st0]) :
    resolveState "State" "Active" rs row = Except.ok (st0, rs) := by
  unfold resolveState
  dsimp only
  rw [getOrCreate_found rs.store ⟨normalize_state row.state, some "State", none⟩
    ⟨none, some "Active", none⟩ st0 h]
  simp

lemma resolveCity_found {rs : RunState} {row : CsvRow} {sl c0 : Location}
    (h : sfilter rs.store (cityQuery row.city sl.id) = [c0]) :
    resolveCity "City" "Active" rs row sl = Except.ok (c0, rs) := by
  unfold resolveCity
  rw [getOrCreate_found rs.store ⟨row.city, some "City", some (some sl.id)⟩
    ⟨none, some "Active", none⟩ c0 h]
  simp

lemma resolveSite_update {rs : RunState} {row : CsvRow} {cl t0 : Location}
    (hdc : "Data Center" ∈ rs.store.locationTypeNames)
    (hbr : "Branch" ∈ rs.store.locationTypeNames)
    (hsuf : suffixed row.name = true)
    (htf : sfilter rs.store (siteQuery row.name) = [t0]) :
    resolveSite "Active" rs row cl =
      Except.ok
        ⟨saveLoc rs.store { t0 with location_type := classifyStr row.name, status := "Active", parent := some cl.id },
         rs.logs ++
           [(LogLevel.info,
             "Updated location: " ++ t0.name ++ " in " ++ row.city ++ ", " ++
               normalize_state row.state)],
         rs.results ++ [t0.id]⟩ := by
  unfold resolveSite
  rw [get_location_type_provisioned hdc hbr hsuf]
  dsimp only
  rw [getOrCreate_found rs.store ⟨row.name, none, none⟩
    ⟨some (classifyStr row.name), some "Active", some (some cl.id)⟩ t0 htf]
  simp

lemma leaf_not_state_city {R : List CsvRow} {s : Store} {t0 : Location} {nm0 : String}
    (hP : Pre R s) (hfree : cityFree R)
    (hfound : sfilter s (siteQuery nm0) = [t0]) (hsuf0 : suffixed nm0 = true)
    (hname0 : ∃ rn ∈ R, nm0 = rn.name) :
    t0 ∈ s.locations ∧ t0.name = nm0 ∧
    (∀ full, t0.matchesQuery (stateQuery full) = false) ∧
    (∀ city sid, t0.matchesQuery (cityQuery city sid) = false) := by
  obtain ⟨h1, h2, h3, h4⟩ := hP
  have ht0pair : t0 ∈ s.locations ∧ t0.matchesQuery (siteQuery nm0) = true := by
    have hmem : t0 ∈ s.locations.filter (fun x => x.matchesQuery (siteQuery nm0)) := by
      rw [show s.locations.filter (fun x => x.matchesQuery (siteQuery nm0)) = [t0]
        from hfound]
      exact List.mem_cons_self _ _
    exact List.mem_filter.mp hmem
  have ht0name : t0.name = nm0 := (matches_siteQuery_iff t0 nm0).mp ht0pair.2
  refine ⟨ht0pair.1, ht0name, ?_, ?_⟩
  · intro full
    rw [Bool.eq_false_iff]
    intro hm
    obtain ⟨hd, hb⟩ := h3 t0 ht0pair.1 ((matches_stateQuery_iff t0 full).mp hm).2
    rw [ht0name] at hd hb
    unfold suffixed at hsuf0
    rw [hd, hb] at hsuf0
    exact absurd hsuf0 (by decide)
  · intro city sid
    rw [Bool.eq_false_iff]
    intro hm
    obtain ⟨rc, hrc, hnc⟩ := h4 t0 ht0pair.1 ((matches_cityQuery_iff t0 city sid).mp hm).2.1
    obtain ⟨rn, hrn, hnm⟩ := hname0
    rw [ht0name, hnm] at hnc
    exact hfree rc hrc rn hrn hnc.symm

lemma processRow_run2 {R : List CsvRow} {rs : RunState} {row : CsvRow}
    {st0 c0 t0 : Location}
    (hfree : cityFree R) (hrow : row ∈ R)
    (hP : Pre R rs.store)
    (hdc : "Data Center" ∈ rs.store.locationTypeNames)
    (hbr : "Branch" ∈ rs.store.locationTypeNames)
    (hsuf : suffixed row.name = true)
    (hst : sfilter rs.store (stateQuery (normalize_state row.state)) = [st0])
    (hcf : sfilter rs.store (cityQuery row.city st0.id) = [c0])
    (htf : sfilter rs.store (siteQuery row.name) = [t0]) :
    ∃ rs', processRow "State" "City" "Active" rs row = Except.ok rs' ∧
      rs'.store = saveLoc rs.store { t0 with location_type := classifyStr row.name, status := "Active", parent := some c0.id } ∧
      rs'.store.nextId = rs.store.nextId ∧
      rs'.store.locations.length = rs.store.locations.length ∧
      rs'.store.locationTypeNames = rs.store.locationTypeNames ∧
      rs'.store.statusNames = rs.store.statusNames ∧
      Pre R rs'.store ∧
      (∀ full, sfilter rs'.store (stateQuery full) = sfilter rs.store (stateQuery full)) ∧
      (∀ city sid, sfilter rs'.store (cityQuery city sid) =
        sfilter rs.store (cityQuery city sid)) ∧
      (∀ nm, nm ≠ row.name → sfilter rs'.store (siteQuery nm) =
        sfilter rs.store (siteQuery nm)) ∧
      sfilter rs'.store (siteQuery row.name) =
        [{ t0 with location_type := classifyStr row.name, status := "Active", parent := some c0.id }] := by
  obtain ⟨hmem0, hname0, hnostate, hnocity⟩ :=
    leaf_not_state_city hP hfree htf hsuf ⟨row, hrow, rfl⟩
  have hpr : processRow "State" "City" "Active" rs row =
      Except.ok
        ⟨saveLoc rs.store { t0 with location_type := classifyStr row.name, status := "Active", parent := some c0.id },
         rs.logs ++
           [(LogLevel.info,
             "Updated location: " ++ t0.name ++ " in " ++ row.city ++ ", " ++
               normalize_state row.state)],
         rs.results ++ [t0.id]⟩ := by
    rw [processRow_ok_iff]
    unfold processRowBody
    rw [resolveState_found hst]
    dsimp only
    rw [resolveCity_found hcf]
    dsimp only
    rw [resolveSite_update hdc hbr hsuf htf]
  refine ⟨_, hpr, rfl, saveLoc_nextId _ _, saveLoc_length _ _, rfl, rfl, ?_, ?_, ?_, ?_, ?_⟩
  · exact Pre_save hP hmem0 _ rfl (classifyStr_cases row.name)
  · intro full
    exact sfilter_saveLoc_no_match rs.store _ (stateQuery full)
      (fun x hx hxid => by
        rw [unique_by_id hP.2.1 hx hmem0 hxid]
        exact hnostate full)
      (by
        rw [Bool.eq_false_iff]
        intro hm
        have htp := ((matches_stateQuery_iff _ full).mp hm).2
        rcases classifyStr_cases row.name with h' | h' <;> rw [h'] at htp <;>
          simp at htp)
  · intro city sid
    exact sfilter_saveLoc_no_match rs.store _ (cityQuery city sid)
      (fun x hx hxid => by
        rw [unique_by_id hP.2.1 hx hmem0 hxid]
        exact hnocity city sid)
      (by
        rw [Bool.eq_false_iff]
        intro hm
        have htp := ((matches_cityQuery_iff _ city sid).mp hm).2.1
        rcases classifyStr_cases row.name with h' | h' <;> rw [h'] at htp <;>
          simp at htp)
  · intro nm hne
    exact sfilter_saveLoc_no_match rs.store _ (siteQuery nm)
      (fun x hx hxid => by
        rw [unique_by_id hP.2.1 hx hmem0 hxid, Bool.eq_false_iff]
        intro hm
        have heq := (matches_siteQuery_iff t0 nm).mp hm
        rw [hname0] at heq
        exact hne heq.symm)
      (by
        rw [Bool.eq_false_iff]
        intro hm
        have heq := (matches_siteQuery_iff _ nm).mp hm
        rw [show ({ t0 with location_type := classifyStr row.name, status := "Active", parent := some c0.id } : Location).name = t0.name from rfl, hname0] at heq
        exact hne heq.symm)
  · exact sfilter_saveLoc_match rs.store _ t0 (siteQuery row.name) hP.2.1 htf rfl
      ((matches_siteQuery_iff _ _).mpr hname0)

lemma runLoop_run2 {R : List CsvRow} (hfree : cityFree R) :
    ∀ (todo : List CsvRow) (rs : RunState),
    (∀ r ∈ todo, r ∈ R) →
    (∀ r ∈ R, suffixed r.name = true) →
    Pre R rs.store →
    "Data Center" ∈ rs.store.locationTypeNames →
    "Branch" ∈ rs.store.locationTypeNames →
    (∀ r ∈ R,
      ∃ st, sfilter rs.store (stateQuery (normalize_state r.state)) = [st] ∧
        (∃ c, sfilter rs.store (cityQuery r.city st.id) = [c]) ∧
        (∃ t1, sfilter rs.store (siteQuery r.name) = [t1])) →
    ∃ rs', runLoop "State" "City" "Active" rs todo = Except.ok rs' ∧
      rs'.store.nextId = rs.store.nextId ∧
      rs'.store.locations.length = rs.store.locations.length ∧
      Pre R rs'.store ∧
      rs'.store.locationTypeNames = rs.store.locationTypeNames ∧
      (∀ full, sfilter rs'.store (stateQuery full) = sfilter rs.store (stateQuery full)) ∧
      (∀ city sid, sfilter rs'.store (cityQuery city sid) =
        sfilter rs.store (cityQuery city sid)) ∧
      (∀ nm, nm ∉ todo.map CsvRow.name →
        sfilter rs'.store (siteQuery nm) = sfilter rs.store (siteQuery nm)) ∧
      (∀ r ∈ R,
        ∃ st, sfilter rs'.store (stateQuery (normalize_state r.state)) = [st] ∧
          (∃ c, sfilter rs'.store (cityQuery r.city st.id) = [c]) ∧
          (∃ t1, sfilter rs'.store (siteQuery r.name) = [t1])) ∧
      (∀ pre r post, todo = pre ++ r :: post → r.name ∉ post.map CsvRow.name →
        ∃ st c t1, sfilter rs'.store (stateQuery (normalize_state r.state)) = [st] ∧
          sfilter rs'.store (cityQuery r.city st.id) = [c] ∧
          sfilter rs'.store (siteQuery r.name) = [t1] ∧
          t1.location_type = classifyStr r.name ∧ t1.status = "Active" ∧
          t1.parent = some c.id) := by
  intro todo
  induction todo with
  | nil =>
    intro rs _ _ hP hdc hbr hfacts
    refine ⟨rs, rfl, rfl, rfl, hP, rfl, fun _ => rfl, fun _ _ => rfl,
      fun _ _ => rfl, hfacts, ?_⟩
    intro pre r post heq _
    exact absurd heq.symm (by simp)
  | cons row rest ih =>
    intro rs hmemR hsufAll hP hdc hbr hfacts
    obtain ⟨st0, hst, ⟨c0, hcf⟩, t0, htf⟩ := hfacts row (hmemR row (List.mem_cons_self _ _))
    obtain ⟨rs1, hpr, hsave, hnid, hlen, htn, hsn, hP1, hstp, hctp, hsitep, hsite1⟩ :=
      processRow_run2 hfree (hmemR row (List.mem_cons_self _ _)) hP hdc hbr
        (hsufAll row (hmemR row (List.mem_cons_self _ _))) hst hcf htf
    obtain ⟨rs2, hloop, hnid2, hlen2, hP2, htn2, hstp2, hctp2, hsitep2, hfacts2, hlast2⟩ :=
      ih rs1 (fun r hr => hmemR r (List.mem_cons_of_mem row hr)) hsufAll hP1
        (htn ▸ hdc) (htn ▸ hbr)
        (by
          intro r hr
          obtain ⟨st, hstX, ⟨c, hcX⟩, t1, htX⟩ := hfacts r hr
          refine ⟨st, by rw [hstp]; exact hstX, ⟨c, by rw [hctp]; exact hcX⟩, ?_⟩
          by_cases hn : r.name = row.name
          · rw [hn]
            exact ⟨_, hsite1⟩
          · exact ⟨t1, by rw [hsitep r.name hn]; exact htX⟩)
    refine ⟨rs2, ?_, hnid2.trans hnid, hlen2.trans hlen, hP2, htn2.trans htn,
      fun full => (hstp2 full).trans (hstp full),
      fun city sid => (hctp2 city sid).trans (hctp city sid), ?_, hfacts2, ?_⟩
    · rw [show runLoop "State" "City" "Active" rs (row :: rest) =
          (match processRow "State" "City" "Active" rs row with
           | Except.ok rs2 => runLoop "State" "City" "Active" rs2 rest
           | Except.error e2 => Except.error e2) from rfl, hpr]
      exact hloop
    · intro nm hnm
      rw [List.map_cons, List.mem_cons] at hnm
      push_neg at hnm
      exact (hsitep2 nm hnm.2).trans (hsitep nm hnm.1)
    · intro pre r post heq hnot
      cases pre with
      | nil =>
        rw [List.nil_append, List.cons.injEq] at heq
        obtain ⟨rfl, rfl⟩ := heq
        refine ⟨st0, c0,
          { t0 with location_type := classifyStr row.name, status := "Active", parent := some c0.id }, ?_, ?_, ?_, rfl, rfl, ?_⟩
        · rw [hstp2]
          rw [hstp]
          exact hst
        · rw [hctp2]
          rw [hctp]
          exact hcf
        · rw [hsitep2 row.name hnot]
          exact hsite1
        · rfl
      | cons row2 pre2 =>
        rw [List.cons_append, List.cons.injEq] at heq
        exact hlast2 pre2 r post heq.2 hnot

lemma locationTypeGet_of_mem {s : Store} {n : String} (h : n ∈ s.locationTypeNames) :
    locationTypeGet s n = Except.ok n := by
  unfold locationTypeGet
  rw [if_pos h]

lemma statusGet_of_mem {s : Store} {n : String} (h : n ∈ s.statusNames) :
    statusGet s n = Except.ok n := by
  unfold statusGet
  rw [if_pos h]

lemma locationTypeGet_ok_mem {s : Store} {n t : String}
    (h : locationTypeGet s n = Except.ok t) : n ∈ s.locationTypeNames := by
  unfold locationTypeGet at h
  split at h
  · next hmem => exact hmem
  · simp at h

lemma statusGet_ok_mem {s : Store} {n t : String}
    (h : statusGet s n = Except.ok t) : n ∈ s.statusNames := by
  unfold statusGet at h
  split at h
  · next hmem => exact hmem
  · simp at h

/-- Counterexample to C2: re-running is not idempotent for every CSV.
On the two-row CSV (A-BR, X-BR, TX), (X-BR, Austin, TX) — whose first
row uses city name "X-BR", also the second row's site name — the first
run succeeds, but it leaves the city record "X-BR" re-typed as a
Branch leaf; the second run's City get-or-create therefore creates a
net-new City record instead of returning the existing one, and the run
then aborts on a doubled leaf lookup, so the leaf's fields do not equal
the second run's computed values either. -/
theorem rerun_not_idempotent :
    run referenceStore [⟨"A-BR", "X-BR", "TX"⟩, ⟨"X-BR", "Austin", "TX"⟩] =
      Except.ok
        (⟨⟨[⟨0, "Texas", "State", "Active", none⟩,
            ⟨1, "X-BR", "Branch", "Active", some 3⟩,
            ⟨2, "A-BR", "Branch", "Active", some 1⟩,
            ⟨3, "Austin", "City", "Active", some 0⟩],
           4, ["State", "City", "Data Center", "Branch"], ["Active"]⟩,
          [(LogLevel.info, "Created state location: Texas"),
           (LogLevel.info, "Created city location: X-BR in Texas"),
           (LogLevel.info, "Created location: A-BR in X-BR, Texas"),
           (LogLevel.info, "Created city location: Austin in Texas"),
           (LogLevel.info, "Updated location: X-BR in Austin, Texas")],
          [2, 1]⟩,
         "Successfully processed 2 locations") ∧
    run ⟨[⟨0, "Texas", "State", "Active", none⟩,
          ⟨1, "X-BR", "Branch", "Active", some 3⟩,
          ⟨2, "A-BR", "Branch", "Active", some 1⟩,
          ⟨3, "Austin", "City", "Active", some 0⟩],
         4, ["State", "City", "Data Center", "Branch"], ["Active"]⟩
        [⟨"A-BR", "X-BR", "TX"⟩, ⟨"X-BR", "Austin", "TX"⟩] =
      Except.error
        (⟨⟨[⟨0, "Texas", "State", "Active", none⟩,
            ⟨1, "X-BR", "Branch", "Active", some 3⟩,
            ⟨2, "A-BR", "Branch", "Active", some 4⟩,
            ⟨3, "Austin", "City", "Active", some 0⟩,
            ⟨4, "X-BR", "City", "Active", some 0⟩],
           5, ["State", "City", "Data Center", "Branch"], ["Active"]⟩,
          [(LogLevel.info, "Created city location: X-BR in Texas"),
           (LogLevel.info, "Updated location: A-BR in X-BR, Texas"),
           (LogLevel.error,
            "Error processing location X-BR: get() returned more than one Location")],
          [2]⟩,
         "get() returned more than one Location") ∧
    (List.filter (fun l => l.location_type == "City")
      ([⟨0, "Texas", "State", "Active", none⟩,
        ⟨1, "X-BR", "Branch", "Active", some 3⟩,
        ⟨2, "A-BR", "Branch", "Active", some 4⟩,
        ⟨3, "Austin", "City", "Active", some 0⟩,
        ⟨4, "X-BR", "City", "Active", some 0⟩] : List Location)).length =
    (List.filter (fun l => l.location_type == "City")
      ([⟨0, "Texas", "State", "Active", none⟩,
        ⟨1, "X-BR", "Branch", "Active", some 3⟩,
        ⟨2, "A-BR", "Branch", "Active", some 1⟩,
        ⟨3, "Austin", "City", "Active", some 0⟩] : List Location)).length + 1 :=
  ⟨rfl, rfl, rfl⟩

/-- C2 (amended): idempotence of re-running under the proviso that no
row's city field equals any row's leaf name.  Starting from a store
holding only reference data, if the first run succeeds then re-running
the same rows succeeds, creates zero net new records of any kind — the
identity counter and the record count are unchanged, so in particular
every State and City get-or-create returned the existing record — and
for every row that is the last occurrence of its leaf name, the unique
leaf record carries exactly the values computed from the second run's
row: the suffix-classified type, Active status, and as parent the
unique City record for the row's city under the row's normalized
state. -/
theorem rerun_idempotent (s0 : Store) (R : List CsvRow) (rs1 : RunState) (m1 : String)
    (hempty : s0.locations = [])
    (hdc : "Data Center" ∈ s0.locationTypeNames)
    (hbr : "Branch" ∈ s0.locationTypeNames)
    (hfree : cityFree R)
    (h1 : run s0 R = Except.ok (rs1, m1)) :
    ∃ rs2 m2, run rs1.store R = Except.ok (rs2, m2) ∧
      rs2.store.nextId = rs1.store.nextId ∧
      rs2.store.locations.length = rs1.store.locations.length ∧
      (∀ pre r post, R = pre ++ r :: post → r.name ∉ post.map CsvRow.name →
        ∃ st c t1, sfilter rs2.store (stateQuery (normalize_state r.state)) = [st] ∧
          sfilter rs2.store (cityQuery r.city st.id) = [c] ∧
          sfilter rs2.store (siteQuery r.name) = [t1] ∧
          t1.location_type = classifyStr r.name ∧ t1.status = "Active" ∧
          t1.parent = some c.id) := by
  obtain ⟨hgSt, hgCt, hgAc, hloop1, hm1⟩ := run_ok_elim h1
  have hP0 : Pre R s0 := by
    refine ⟨?_, ?_, ?_, ?_⟩ <;> rw [hempty] <;> simp
  obtain ⟨hstep1, hfactsF⟩ := runLoop_run1 hfree R ⟨s0, [], []⟩ rs1 (fun r hr => hr) hloop1
  have hfacts1 := hfactsF hP0
  obtain ⟨hP1, htypeEq, hstatEq, -, -, -⟩ := hstep1 hP0
  have hsufAll : ∀ r ∈ R, suffixed r.name = true := fun r hr => (hfacts1 r hr).1
  have hdc1 : "Data Center" ∈ rs1.store.locationTypeNames := by rw [htypeEq]; exact hdc
  have hbr1 : "Branch" ∈ rs1.store.locationTypeNames := by rw [htypeEq]; exact hbr
  obtain ⟨rs2, hloop2, hnid2, hlen2, hP2, htn2, hstp2, hctp2, hsitep2, hfacts2, hlast2⟩ :=
    runLoop_run2 hfree R ⟨rs1.store, [], []⟩ (fun r hr => hr) hsufAll hP1 hdc1 hbr1
      (by
        intro r hr
        obtain ⟨-, ⟨st, hst, c, hcf⟩, t1, htf⟩ := hfacts1 r hr
        exact ⟨st, hst, ⟨c, hcf⟩, ⟨t1, htf⟩⟩)
  refine ⟨rs2, "Successfully processed " ++ toString rs2.results.length ++ " locations",
    ?_, hnid2, hlen2, hlast2⟩
  unfold run
  rw [locationTypeGet_of_mem (htypeEq ▸ locationTypeGet_ok_mem hgSt)]
  dsimp only
  rw [locationTypeGet_of_mem (htypeEq ▸ locationTypeGet_ok_mem hgCt)]
  dsimp only
  rw [statusGet_of_mem (hstatEq ▸ statusGet_ok_mem hgAc)]
  dsimp only
  rw [hloop2]

/-- Witness for the amended C2: re-running the one-row CSV
(HQ-DC, Austin, TX) on the store left by its first run creates nothing
new and leaves the leaf exactly as computed. -/
theorem rerun_idempotent_witness :
    ∃ rs2 m2,
      run (⟨[⟨0, "Texas", "State", "Active", none⟩,
             ⟨1, "Austin", "City", "Active", some 0⟩,
             ⟨2, "HQ-DC", "Data Center", "Active", some 1⟩],
            3, ["State", "City", "Data Center", "Branch"], ["Active"]⟩ : Store)
          [⟨"HQ-DC", "Austin", "TX"⟩] = Except.ok (rs2, m2) ∧
      rs2.store.nextId = 3 ∧
      rs2.store.locations.length = 3 ∧
      (∀ pre r post,
        ([⟨"HQ-DC", "Austin", "TX"⟩] : List CsvRow) = pre ++ r :: post →
        r.name ∉ post.map CsvRow.name →
        ∃ st c t1, sfilter rs2.store (stateQuery (normalize_state r.state)) = [st] ∧
          sfilter rs2.store (cityQuery r.city st.id) = [c] ∧
          sfilter rs2.store (siteQuery r.name) = [t1] ∧
          t1.location_type = classifyStr r.name ∧ t1.status = "Active" ∧
          t1.parent = some c.id) :=
  rerun_idempotent referenceStore [⟨"HQ-DC", "Austin", "TX"⟩]
    ⟨⟨[⟨0, "Texas", "State", "Active", none⟩,
       ⟨1, "Austin", "City", "Active", some 0⟩,
       ⟨2, "HQ-DC", "Data Center", "Active", some 1⟩],
      3, ["State", "City", "Data Center", "Branch"], ["Active"]⟩,
     [(LogLevel.info, "Created state location: Texas"),
      (LogLevel.info, "Created city location: Austin in Texas"),
      (LogLevel.info, "Created location: HQ-DC in Austin, Texas")],
     [2]⟩
    "Successfully processed 1 locations"
    rfl (by decide) (by decide) (by unfold cityFree; decide) rfl
